import Mathlib

/-!
Verification of the divsufsort suffix-array / BWT engine
(src/cpp/src/transform/DivSufSort.cpp) against its specification.

The C++ code is shallowly embedded: every int32 array (the caller-supplied
SA, the widened 16-bit buffer, the two bucket arrays) is modelled as a
sequence of rows, each row a natural number holding 4096 little-endian
base-2^32 digits of the array, each digit being the two-complement
encoding of the stored 32-bit value; unwritten slots read as digit 0.
The row sequence (type Arr below) keeps the first sixteen rows, covering
indexes 0..65535, in one constructor and chains further rows behind
them.  All mutation is explicit state passing over a record of those
encoded arrays plus the three explicit recursion stacks and the
tandem-repeat budget.  Loops of the source become fuel recursion; fuel is
always chosen large enough that it is never exhausted on the concrete
inputs evaluated by the theorems below.

Reads of the input buffer outside the filled range (the source performs
such a read at buffer index -1 when length is below 2, and the slot at
index length is allocated but never written) return an explicit
unspecified-garbage parameter oob threaded through the state, so that the
behaviour of the code on such reads can be analysed instead of silently
picking a value.
-/

namespace Kanzi

/-- Two-complement encoding of an Int into a 32-bit digit. -/
def enc32 (v : Int) : Nat := (v.emod 4294967296).toNat

/-- Digit i of a 4096-digit row. -/
def digit (a : Nat) (i : Nat) : Nat := (a >>> (32 * i)) &&& 4294967295

/-- Two-complement decoding of a 32-bit digit. -/
def dec32 (d : Nat) : Int := if d < 2147483648 then (d : Int) else (d : Int) - 4294967296

/-- Strict application on a natural number: semantically the identity
continuation (both branches return f n), but deciding the comparison
forces the argument to a value first, which keeps definitional-reduction
chains shallow in the accumulator-passing loops below. -/
def withNat {α : Sort v} (n : Nat) (f : Nat → α) : α :=
  if n = 0 then f n else f n

/-- Strict application on an integer, as withNat. -/
def withInt {α : Sort v} (i : Int) (f : Int → α) : α :=
  if i = 0 then f i else f i

/-- An int32 array as a chain of 4096-digit rows: nil is the all-zero
array, a node carries rows 0..15 (array indexes 0..65535) and the chain
of the rows above them. -/
inductive Arr where
  | nil : Arr
  | node : Nat → Nat → Nat → Nat → Nat → Nat → Nat → Nat → Nat → Nat → Nat → Nat → Nat → Nat → Nat → Nat → Arr → Arr
deriving DecidableEq, Repr

/-- Row r of an array. -/
def Arr.row : Arr → Nat → Nat
  | .nil, _ => 0
  | .node r0 r1 r2 r3 r4 r5 r6 r7 r8 r9 r10 r11 r12 r13 r14 r15 rest, r =>
    if r < 16 then
      if r < 8 then
        if r < 4 then
          if r < 2 then
            if r < 1 then
              r0
            else
              r1
          else
            if r < 3 then
              r2
            else
              r3
        else
          if r < 6 then
            if r < 5 then
              r4
            else
              r5
          else
            if r < 7 then
              r6
            else
              r7
      else
        if r < 12 then
          if r < 10 then
            if r < 9 then
              r8
            else
              r9
          else
            if r < 11 then
              r10
            else
              r11
        else
          if r < 14 then
            if r < 13 then
              r12
            else
              r13
          else
            if r < 15 then
              r14
            else
              r15
    else Arr.row rest (r - 16)

/-- Replace row r of an array; the fuel argument bounds the chain hops
and r >>> 4 + 1 always suffices.  Writing row 0 into the all-zero array
keeps it nil, so arrays stay canonical: an all-zero suffix is never
materialised. -/
def Arr.setRow : Nat → Arr → Nat → Nat → Arr
  | 0, t, _, _ => t
  | fl + 1, .nil, r, v =>
    if v = 0 then .nil else
    if r < 16 then
      if r < 8 then
        if r < 4 then
          if r < 2 then
            if r < 1 then
              .node v 0 0 0 0 0 0 0 0 0 0 0 0 0 0 0 .nil
            else
              .node 0 v 0 0 0 0 0 0 0 0 0 0 0 0 0 0 .nil
          else
            if r < 3 then
              .node 0 0 v 0 0 0 0 0 0 0 0 0 0 0 0 0 .nil
            else
              .node 0 0 0 v 0 0 0 0 0 0 0 0 0 0 0 0 .nil
        else
          if r < 6 then
            if r < 5 then
              .node 0 0 0 0 v 0 0 0 0 0 0 0 0 0 0 0 .nil
            else
              .node 0 0 0 0 0 v 0 0 0 0 0 0 0 0 0 0 .nil
          else
            if r < 7 then
              .node 0 0 0 0 0 0 v 0 0 0 0 0 0 0 0 0 .nil
            else
              .node 0 0 0 0 0 0 0 v 0 0 0 0 0 0 0 0 .nil
      else
        if r < 12 then
          if r < 10 then
            if r < 9 then
              .node 0 0 0 0 0 0 0 0 v 0 0 0 0 0 0 0 .nil
            else
              .node 0 0 0 0 0 0 0 0 0 v 0 0 0 0 0 0 .nil
          else
            if r < 11 then
              .node 0 0 0 0 0 0 0 0 0 0 v 0 0 0 0 0 .nil
            else
              .node 0 0 0 0 0 0 0 0 0 0 0 v 0 0 0 0 .nil
        else
          if r < 14 then
            if r < 13 then
              .node 0 0 0 0 0 0 0 0 0 0 0 0 v 0 0 0 .nil
            else
              .node 0 0 0 0 0 0 0 0 0 0 0 0 0 v 0 0 .nil
          else
            if r < 15 then
              .node 0 0 0 0 0 0 0 0 0 0 0 0 0 0 v 0 .nil
            else
              .node 0 0 0 0 0 0 0 0 0 0 0 0 0 0 0 v .nil
    else .node 0 0 0 0 0 0 0 0 0 0 0 0 0 0 0 0 (Arr.setRow fl .nil (r - 16) v)
  | fl + 1, .node r0 r1 r2 r3 r4 r5 r6 r7 r8 r9 r10 r11 r12 r13 r14 r15 rest, r, v =>
    if r < 16 then
      if r < 8 then
        if r < 4 then
          if r < 2 then
            if r < 1 then
              .node v r1 r2 r3 r4 r5 r6 r7 r8 r9 r10 r11 r12 r13 r14 r15 rest
            else
              .node r0 v r2 r3 r4 r5 r6 r7 r8 r9 r10 r11 r12 r13 r14 r15 rest
          else
            if r < 3 then
              .node r0 r1 v r3 r4 r5 r6 r7 r8 r9 r10 r11 r12 r13 r14 r15 rest
            else
              .node r0 r1 r2 v r4 r5 r6 r7 r8 r9 r10 r11 r12 r13 r14 r15 rest
        else
          if r < 6 then
            if r < 5 then
              .node r0 r1 r2 r3 v r5 r6 r7 r8 r9 r10 r11 r12 r13 r14 r15 rest
            else
              .node r0 r1 r2 r3 r4 v r6 r7 r8 r9 r10 r11 r12 r13 r14 r15 rest
          else
            if r < 7 then
              .node r0 r1 r2 r3 r4 r5 v r7 r8 r9 r10 r11 r12 r13 r14 r15 rest
            else
              .node r0 r1 r2 r3 r4 r5 r6 v r8 r9 r10 r11 r12 r13 r14 r15 rest
      else
        if r < 12 then
          if r < 10 then
            if r < 9 then
              .node r0 r1 r2 r3 r4 r5 r6 r7 v r9 r10 r11 r12 r13 r14 r15 rest
            else
              .node r0 r1 r2 r3 r4 r5 r6 r7 r8 v r10 r11 r12 r13 r14 r15 rest
          else
            if r < 11 then
              .node r0 r1 r2 r3 r4 r5 r6 r7 r8 r9 v r11 r12 r13 r14 r15 rest
            else
              .node r0 r1 r2 r3 r4 r5 r6 r7 r8 r9 r10 v r12 r13 r14 r15 rest
        else
          if r < 14 then
            if r < 13 then
              .node r0 r1 r2 r3 r4 r5 r6 r7 r8 r9 r10 r11 v r13 r14 r15 rest
            else
              .node r0 r1 r2 r3 r4 r5 r6 r7 r8 r9 r10 r11 r12 v r14 r15 rest
          else
            if r < 15 then
              .node r0 r1 r2 r3 r4 r5 r6 r7 r8 r9 r10 r11 r12 r13 v r15 rest
            else
              .node r0 r1 r2 r3 r4 r5 r6 r7 r8 r9 r10 r11 r12 r13 r14 v rest
    else
      match Arr.setRow fl rest (r - 16) v with
      | t => .node r0 r1 r2 r3 r4 r5 r6 r7 r8 r9 r10 r11 r12 r13 r14 r15 t

/-- Strict application on an array, as withNat: matching the root
constructor forces the pending writes. -/
def Arr.force {α : Sort v} (t : Arr) (f : Arr → α) : α :=
  match t with
  | .nil => f .nil
  | .node r0 r1 r2 r3 r4 r5 r6 r7 r8 r9 r10 r11 r12 r13 r14 r15 rest =>
    f (.node r0 r1 r2 r3 r4 r5 r6 r7 r8 r9 r10 r11 r12 r13 r14 r15 rest)

/-- Read the int32 stored at index i of an array. -/
def agetN (a : Arr) (i : Nat) : Int := dec32 (digit (a.row (i >>> 12)) (i &&& 4095))

/-- Write the int32 v at index i of an array: replace digit i &&& 4095 of
row i >>> 12 by the encoding of v. -/
def asetN (a : Arr) (i : Nat) (v : Int) : Arr :=
  let r := i >>> 12
  let k := i &&& 4095
  let row := a.row r
  withNat (row - (digit row k) <<< (32 * k) + (enc32 v) <<< (32 * k)) fun nrow =>
    Arr.setRow (r >>> 4 + 1) a r nrow

/-- Array read at a C int index (all such indexes are nonnegative in the
runs analysed here). -/
def aget (a : Arr) (i : Int) : Int := agetN a i.toNat

/-- Array write at a C int index. -/
def aset (a : Arr) (i : Int) (v : Int) : Arr := asetN a i.toNat v
/-- Bitwise complement of a C int: in two-complement arithmetic the
operator on x yields -x - 1. -/
def cpl (x : Int) : Int := -x - 1

/-- Bitwise and of two nonnegative C ints. -/
def landI (a b : Int) : Int := ((a.toNat &&& b.toNat : Nat) : Int)

/-- Bitwise or of two nonnegative C ints. -/
def lorI (a b : Int) : Int := ((a.toNat ||| b.toNat : Nat) : Int)

/-- Bitwise xor of two nonnegative C ints. -/
def xorI (a b : Int) : Int := ((a.toNat ^^^ b.toNat : Nat) : Int)

/-- LOG_TABLE of DivSufSort.cpp, lines 40-51: entry i is the floor of the
base-2 logarithm of i, with -1 at index 0. -/
def LOG_TABLE : List Int :=
  [-1, 0, 1, 1, 2, 2, 2, 2, 3, 3, 3, 3, 3, 3, 3, 3,
   4, 4, 4, 4, 4, 4, 4, 4, 4, 4, 4, 4, 4, 4, 4, 4,
   5, 5, 5, 5, 5, 5, 5, 5, 5, 5, 5, 5, 5, 5, 5, 5,
   5, 5, 5, 5, 5, 5, 5, 5, 5, 5, 5, 5, 5, 5, 5, 5,
   6, 6, 6, 6, 6, 6, 6, 6, 6, 6, 6, 6, 6, 6, 6, 6,
   6, 6, 6, 6, 6, 6, 6, 6, 6, 6, 6, 6, 6, 6, 6, 6,
   6, 6, 6, 6, 6, 6, 6, 6, 6, 6, 6, 6, 6, 6, 6, 6,
   6, 6, 6, 6, 6, 6, 6, 6, 6, 6, 6, 6, 6, 6, 6, 6,
   7, 7, 7, 7, 7, 7, 7, 7, 7, 7, 7, 7, 7, 7, 7, 7,
   7, 7, 7, 7, 7, 7, 7, 7, 7, 7, 7, 7, 7, 7, 7, 7,
   7, 7, 7, 7, 7, 7, 7, 7, 7, 7, 7, 7, 7, 7, 7, 7,
   7, 7, 7, 7, 7, 7, 7, 7, 7, 7, 7, 7, 7, 7, 7, 7,
   7, 7, 7, 7, 7, 7, 7, 7, 7, 7, 7, 7, 7, 7, 7, 7,
   7, 7, 7, 7, 7, 7, 7, 7, 7, 7, 7, 7, 7, 7, 7, 7,
   7, 7, 7, 7, 7, 7, 7, 7, 7, 7, 7, 7, 7, 7, 7, 7,
   7, 7, 7, 7, 7, 7, 7, 7, 7, 7, 7, 7, 7, 7, 7, 7]

/-- SQQ_TABLE of DivSufSort.cpp, lines 21-38 (a 256-entry square-root
table scaled by 16). -/
def SQQ_TABLE : List Int :=
  [0, 16, 22, 27, 32, 35, 39, 42, 45, 48, 50, 53, 55, 57, 59, 61,
   64, 65, 67, 69, 71, 73, 75, 76, 78, 80, 81, 83, 84, 86, 87, 89,
   90, 91, 93, 94, 96, 97, 98, 99, 101, 102, 103, 104, 106, 107, 108, 109,
   110, 112, 113, 114, 115, 116, 117, 118, 119, 120, 121, 122, 123, 124, 125, 126,
   128, 128, 129, 130, 131, 132, 133, 134, 135, 136, 137, 138, 139, 140, 141, 142,
   143, 144, 144, 145, 146, 147, 148, 149, 150, 150, 151, 152, 153, 154, 155, 155,
   156, 157, 158, 159, 160, 160, 161, 162, 163, 163, 164, 165, 166, 167, 167, 168,
   169, 170, 170, 171, 172, 173, 173, 174, 175, 176, 176, 177, 178, 178, 179, 180,
   181, 181, 182, 183, 183, 184, 185, 185, 186, 187, 187, 188, 189, 189, 190, 191,
   192, 192, 193, 193, 194, 195, 195, 196, 197, 197, 198, 199, 199, 200, 201, 201,
   202, 203, 203, 204, 204, 205, 206, 206, 207, 208, 208, 209, 209, 210, 211, 211,
   212, 212, 213, 214, 214, 215, 215, 216, 217, 217, 218, 218, 219, 219, 220, 221,
   221, 222, 222, 223, 224, 224, 225, 225, 226, 226, 227, 227, 228, 229, 229, 230,
   230, 231, 231, 232, 232, 233, 234, 234, 235, 235, 236, 236, 237, 237, 238, 238,
   239, 240, 240, 241, 241, 242, 242, 243, 243, 244, 244, 245, 245, 246, 246, 247,
   247, 248, 248, 249, 249, 250, 250, 251, 251, 252, 252, 253, 253, 254, 254, 255]

/-- Lookup in LOG_TABLE at a (masked, hence in-range) natural index. -/
def logTN (i : Nat) : Int := LOG_TABLE.getD i 0

/-- Lookup in SQQ_TABLE at a natural index. -/
def sqqTN (i : Nat) : Int := SQQ_TABLE.getD i 0

/-- Modelled from the spec: the constants of DivSufSort.hpp are not under
src/; section 4.2 of the spec gives SS_INSERTIONSORT_THRESHOLD = 8. -/
def SS_INSERTIONSORT_THRESHOLD : Int := 8

/-- Modelled from the spec: section 4.2 gives SS_BLOCKSIZE = 1024. -/
def SS_BLOCKSIZE : Int := 1024

/-- Modelled from the spec: section 4.3 gives TR_INSERTIONSORT_THRESHOLD = 8. -/
def TR_INSERTIONSORT_THRESHOLD : Int := 8

/-- ssIlg, DivSufSort.cpp lines 1485-1489, on the underlying natural
number of the (always nonnegative) argument. -/
def ssIlgN (n : Nat) : Int :=
  if n &&& 0xFF00 ≠ 0 then 8 + logTN ((n >>> 8) &&& 0xFF)
  else logTN (n &&& 0xFF)

/-- ssIlg, DivSufSort.cpp lines 1485-1489. -/
def ssIlg (n : Int) : Int := ssIlgN n.toNat

/-- trIlg, DivSufSort.cpp lines 2291-2297, on the underlying natural
number of the (always nonnegative) argument. -/
def trIlgN (n : Nat) : Int :=
  if n &&& 0xFFFF0000 ≠ 0 then
    (if n &&& 0xFF000000 ≠ 0 then 24 + logTN ((n >>> 24) &&& 0xFF)
     else 16 + logTN ((n >>> 16) &&& 0xFF))
  else
    (if n &&& 0x0000FF00 ≠ 0 then 8 + logTN ((n >>> 8) &&& 0xFF)
     else logTN (n &&& 0xFF))

/-- trIlg, DivSufSort.cpp lines 2291-2297. -/
def trIlg (n : Int) : Int := trIlgN n.toNat

/-- ssIsqrt, DivSufSort.cpp lines 1071-1100. -/
def ssIsqrt (x : Int) : Int :=
  if x ≥ SS_BLOCKSIZE * SS_BLOCKSIZE then SS_BLOCKSIZE
  else
    let m := x.toNat
    let e : Int :=
      if m &&& 0xFFFF0000 ≠ 0 then
        (if m &&& 0xFF000000 ≠ 0 then 24 + logTN ((m >>> 24) &&& 0xFF)
         else 16 + logTN ((m >>> 16) &&& 0xFF))
      else
        (if m &&& 0x0000FF00 ≠ 0 then 8 + logTN ((m >>> 8) &&& 0xFF)
         else logTN (m &&& 0xFF))
    if e < 8 then sqqTN m / 16
    else
      let y : Int :=
        if e ≥ 16 then
          let y0 := sqqTN (m >>> (e - 6 - landI e 1).toNat) * 2 ^ (e / 2 - 7).toNat
          let y1 := if e ≥ 24 then (y0 + 1 + x / y0) / 2 else y0
          (y1 + 1 + x / y1) / 2
        else
          sqqTN (m >>> (e - 6 - landI e 1).toNat) / 2 ^ (7 - e / 2).toNat + 1
      if x < y * y then y - 1 else y

/-- Modelled from the spec: getIndex is declared in DivSufSort.hpp, which
is not under src/.  Per the sign-bit-tagging model of spec sections 3 and
4.2, a tagged entry is the bitwise complement of the index it stands for,
so getIndex recovers the untagged index. -/
def getIndex (a : Int) : Int := if 0 ≤ a then a else cpl a

/-- StackElement, DivSufSort.cpp lines 2299-2306: a 5-tuple of ints,
zero-initialised. -/
structure StackElement where
  a : Int
  b : Int
  c : Int
  d : Int
  e : Int
deriving DecidableEq, Repr

instance : Inhabited StackElement := ⟨⟨0, 0, 0, 0, 0⟩⟩

/-- Stack, DivSufSort.cpp lines 2308-2339: a preallocated array of
elements plus a cursor.  Popping only moves the cursor, so a popped slot
keeps its values and can still be addressed through get, which trIntroSort
relies on for the trlink marking. -/
structure Stack where
  arr : Array StackElement
  index : Nat
deriving Repr

/-- Stack push, DivSufSort.cpp lines 2325-2334.  The C++ stack is
preallocated at a fixed capacity whose overflow is undefined behaviour
(spec section 4.5 calls over-push a design bug); the model simply grows
the backing array when the cursor reaches its end, which coincides with
the source on every non-overflowing run. -/
def Stack.push (s : Stack) (a b c d e : Int) : Stack :=
  if h : s.index < s.arr.size then ⟨s.arr.set ⟨s.index, h⟩ ⟨a, b, c, d, e⟩, s.index + 1⟩
  else ⟨s.arr.push ⟨a, b, c, d, e⟩, s.index + 1⟩

/-- Stack pop, DivSufSort.cpp lines 2336-2339. -/
def Stack.pop (s : Stack) : Option (StackElement × Stack) :=
  if s.index = 0 then none
  else some (s.arr.getD (s.index - 1) default, ⟨s.arr, s.index - 1⟩)

/-- Stack size: the cursor (the number of live elements). -/
def Stack.size (s : Stack) : Int := (s.index : Int)

/-- Setting field d of the element at slot i to -1, the only use
trIntroSort makes of Stack get (lines 1725, 1795, 1968, 2021). -/
def Stack.markD (s : Stack) (i : Int) : Stack :=
  ⟨s.arr.modify i.toNat (fun el => ⟨el.a, el.b, el.c, -1, el.e⟩), s.index⟩

/-- TRBudget, DivSufSort.cpp lines 2341-2346.  The C++ constructor leaves
the count field uninitialised; trSort assigns it before every use, and the
model starts it at 0. -/
structure TRBudget where
  chance : Int
  remain : Int
  incVal : Int
  count : Int
deriving DecidableEq, Repr

/-- TRBudget check, DivSufSort.cpp lines 2348-2363. -/
def TRBudget.check (b : TRBudget) (size : Int) : Bool × TRBudget :=
  if size ≤ b.remain then (true, ⟨b.chance, b.remain - size, b.incVal, b.count⟩)
  else if b.chance = 0 then (false, ⟨b.chance, b.remain, b.incVal, b.count + size⟩)
  else (true, ⟨b.chance - 1, b.remain + (b.incVal - size), b.incVal, b.count⟩)

/-- The mutable state threaded through the sorter: the caller-supplied SA,
the widened input buffer with its valid length and the garbage value
returned by an out-of-range buffer read, the two bucket arrays and the
three explicit stacks. -/
structure Core where
  sa : Arr
  buffer : Arr
  bufLen : Int
  oob : Int
  bucketA : Arr
  bucketB : Arr
  ssStack : Stack
  trStack : Stack
  mergeStack : Stack

/-- Read of the SA array. -/
def Core.sget (st : Core) (i : Int) : Int := aget st.sa i

/-- Write to the SA array. -/
def Core.sset (st : Core) (i v : Int) : Core := { st with sa := aset st.sa i v }

/-- Read of the widened input buffer.  Indexes outside the filled range
[0, bufLen) read allocation garbage in the C++ and yield the explicit
oob parameter here. -/
def Core.bget (st : Core) (i : Int) : Int :=
  if 0 ≤ i ∧ i < st.bufLen then aget st.buffer i else st.oob

/-- Read of bucketA. -/
def Core.bAget (st : Core) (i : Int) : Int := aget st.bucketA i

/-- Write to bucketA. -/
def Core.bAset (st : Core) (i v : Int) : Core := { st with bucketA := aset st.bucketA i v }

/-- Read of bucketB. -/
def Core.bBget (st : Core) (i : Int) : Int := aget st.bucketB i

/-- Write to bucketB. -/
def Core.bBset (st : Core) (i v : Int) : Core := { st with bucketB := aset st.bucketB i v }

/-- swapInSA, DivSufSort.cpp lines 1491-1496. -/
def Core.swap (st : Core) (a b : Int) : Core :=
  let tmp := st.sget a
  let st := st.sset a (st.sget b)
  st.sset b tmp

/-- Push on the substring-sort stack. -/
def Core.ssPush (st : Core) (a b c d e : Int) : Core :=
  { st with ssStack := st.ssStack.push a b c d e }

/-- Pop from the substring-sort stack. -/
def Core.ssPop (st : Core) : Option (StackElement × Core) :=
  match st.ssStack.pop with
  | none => none
  | some (se, s2) => some (se, { st with ssStack := s2 })

/-- Push on the tandem-repeat stack. -/
def Core.trPush (st : Core) (a b c d e : Int) : Core :=
  { st with trStack := st.trStack.push a b c d e }

/-- Pop from the tandem-repeat stack. -/
def Core.trPop (st : Core) : Option (StackElement × Core) :=
  match st.trStack.pop with
  | none => none
  | some (se, s2) => some (se, { st with trStack := s2 })

/-- Pop from the tandem-repeat stack at a site where the C++ dereferences
the result without a null check (line 1718); on the empty stack, which no
analysed run reaches, the model yields the zero element. -/
def Core.trPopD (st : Core) : StackElement × Core :=
  match st.trStack.pop with
  | none => (default, st)
  | some (se, s2) => (se, { st with trStack := s2 })

/-- Mark field d of tandem-repeat stack slot i with -1. -/
def Core.trMarkD (st : Core) (i : Int) : Core :=
  { st with trStack := st.trStack.markD i }

/-- Push on the merge stack. -/
def Core.mgPush (st : Core) (a b c d e : Int) : Core :=
  { st with mergeStack := st.mergeStack.push a b c d e }

/-- Pop from the merge stack. -/
def Core.mgPop (st : Core) : Option (StackElement × Core) :=
  match st.mergeStack.pop with
  | none => none
  | some (se, s2) => some (se, { st with mergeStack := s2 })

/-- Strict application on a Core state: forces the four encoded arrays
(semantically the identity, as withNat). -/
def withCore {α : Sort v} (st : Core) (f : Core → α) : α :=
  match st with
  | ⟨sa, buf, bl, ob, bA, bB, s1, s2, s3⟩ =>
    Arr.force sa fun sa =>
    Arr.force buf fun buf =>
    Arr.force bA fun bA =>
    Arr.force bB fun bB => f ⟨sa, buf, bl, ob, bA, bB, s1, s2, s3⟩

/-- Advance loop of ssCompare when the first substring is the longer one
(DivSufSort.cpp lines 511-515): step both cursors while the second is
below its bound and the bytes agree. -/
def ssCmpAdvA (st : Core) : Nat → Int → Int → Int → Int × Int
  | 0, u1, u2, _ => (u1, u2)
  | k + 1, u1, u2, u2n =>
    if u2 < u2n ∧ st.bget u1 = st.bget u2 then ssCmpAdvA st k (u1 + 1) (u2 + 1) u2n
    else (u1, u2)

/-- Advance loop of ssCompare in the other branch (lines 517-521). -/
def ssCmpAdvB (st : Core) : Nat → Int → Int → Int → Int × Int
  | 0, u1, u2, _ => (u1, u2)
  | k + 1, u1, u2, u1n =>
    if u1 < u1n ∧ st.bget u1 = st.bget u2 then ssCmpAdvB st k (u1 + 1) (u2 + 1) u1n
    else (u1, u2)

/-- Three-argument ssCompare, DivSufSort.cpp lines 526-547: compare the
substrings whose SA slots are p1 and p2, from offset depth, each bounded
two bytes past the following B-star position. -/
def ssCompare (F : Nat) (st : Core) (p1 p2 depth : Int) : Int :=
  let u1 := depth + st.sget p1
  let u2 := depth + st.sget p2
  let u1n := st.sget (p1 + 1) + 2
  let u2n := st.sget (p2 + 1) + 2
  let r := if u1n - u1 > u2n - u2 then ssCmpAdvA st F u1 u2 u2n else ssCmpAdvB st F u1 u2 u1n
  if r.1 < u1n then (if r.2 < u2n then st.bget r.1 - st.bget r.2 else 1)
  else (if r.2 < u2n then -1 else 0)

/-- Four-argument ssCompare, DivSufSort.cpp lines 503-524: the first
substring is given directly by its start pa and bound pb. -/
def ssCompare4 (F : Nat) (st : Core) (pa pb p2 depth : Int) : Int :=
  let u1 := depth + pa
  let u2 := depth + st.sget p2
  let u1n := pb + 2
  let u2n := st.sget (p2 + 1) + 2
  let r := if u1n - u1 > u2n - u2 then ssCmpAdvA st F u1 u2 u2n else ssCmpAdvB st F u1 u2 u1n
  if r.1 < u1n then (if r.2 < u2n then st.bget r.1 - st.bget r.2 else 1)
  else (if r.2 < u2n then -1 else 0)

/-- Shift loop of ssInsertionSort (lines 1055-1058): slide the element at
j one slot down, skipping over tagged entries. -/
def ssInsShift (last : Int) : Nat → Core → Int → Core × Int
  | 0, st, j => (st, j)
  | k + 1, st, j =>
    let st := st.sset (j - 1) (st.sget j)
    let j := j + 1
    if j < last ∧ st.sget j < 0 then ssInsShift last k st j else (st, j)

/-- Comparison loop of ssInsertionSort (lines 1054-1062): returns the
state, the insertion cursor and the last comparison result. -/
def ssInsWhile (F : Nat) (pa last depth t : Int) : Nat → Core → Int → Core × Int × Int
  | 0, st, j => (st, j, 0)
  | k + 1, st, j =>
    let r := ssCompare F st t (pa + st.sget j) depth
    if r > 0 then
      let p := ssInsShift last F st j
      if p.2 ≥ last then (p.1, p.2, r) else ssInsWhile F pa last depth t k p.1 p.2
    else (st, j, r)

/-- Outer loop of ssInsertionSort, DivSufSort.cpp lines 1047-1069. -/
def ssInsertionSortLoop (F : Nat) (pa first last depth : Int) : Nat → Core → Int → Core
  | 0, st, _ => st
  | k + 1, st, i =>
    if i ≥ first then
      let t := pa + st.sget i
      let p := ssInsWhile F pa last depth t F st (i + 1)
      let st := p.1
      let j := p.2.1
      let r := p.2.2
      let st := if r = 0 then st.sset j (cpl (st.sget j)) else st
      let st := st.sset (j - 1) (t - pa)
      ssInsertionSortLoop F pa first last depth k st (i - 1)
    else st

/-- ssInsertionSort, DivSufSort.cpp lines 1047-1069. -/
def ssInsertionSort (F : Nat) (pa first last depth : Int) (st : Core) : Core :=
  ssInsertionSortLoop F pa first last depth F st (last - 2)

/-- Sift loop of ssFixDown, DivSufSort.cpp lines 1463-1480. -/
def ssFixDownLoop (idx pa saIdx v c size : Int) : Nat → Core → Int → Int → Core × Int
  | 0, st, i, _ => (st, i)
  | fl + 1, st, i, j =>
    if j < size then
      let k := j
      let j := j + 1
      let d := st.bget (idx + st.sget (pa + st.sget (saIdx + k)))
      let e := st.bget (idx + st.sget (pa + st.sget (saIdx + j)))
      let kd := if d < e then (j, e) else (k, d)
      if kd.2 ≤ c then (st, i)
      else
        let st := st.sset (saIdx + i) (st.sget (saIdx + kd.1))
        let i := kd.1
        ssFixDownLoop idx pa saIdx v c size fl st i (2 * i + 1)
    else (st, i)

/-- ssFixDown, DivSufSort.cpp lines 1457-1483. -/
def ssFixDown (F : Nat) (idx pa saIdx i size : Int) (st : Core) : Core :=
  let v := st.sget (saIdx + i)
  let c := st.bget (idx + st.sget (pa + v))
  let p := ssFixDownLoop idx pa saIdx v c size F st i (2 * i + 1)
  p.1.sset (p.2 + saIdx) v

/-- Build phase of ssHeapSort (lines 1441-1442): fix down the internal
nodes from the middle towards the root. -/
def ssHeapBuild (F : Nat) (idx pa saIdx m : Int) : Nat → Core → Int → Core
  | 0, st, _ => st
  | k + 1, st, i =>
    if i ≥ 0 then ssHeapBuild F idx pa saIdx m k (ssFixDown F idx pa saIdx i m st) (i - 1)
    else st

/-- Extraction phase of ssHeapSort (lines 1449-1454). -/
def ssHeapExtract (F : Nat) (idx pa saIdx : Int) : Nat → Core → Int → Core
  | 0, st, _ => st
  | k + 1, st, i =>
    if i > 0 then
      let t := st.sget saIdx
      let st := st.sset saIdx (st.sget (saIdx + i))
      let st := ssFixDown F idx pa saIdx 0 i st
      let st := st.sset (saIdx + i) t
      ssHeapExtract F idx pa saIdx k st (i - 1)
    else st

/-- ssHeapSort, DivSufSort.cpp lines 1430-1455. -/
def ssHeapSort (F : Nat) (idx pa saIdx size : Int) (st : Core) : Core :=
  let m := size
  let p :=
    if landI size 1 = 0 then
      let m := m - 1
      let st :=
        if st.bget (idx + st.sget (pa + st.sget (saIdx + m / 2)))
            < st.bget (idx + st.sget (pa + st.sget (saIdx + m))) then
          st.swap (saIdx + m) (saIdx + m / 2)
        else st
      (st, m)
    else (st, m)
  let st := p.1
  let m := p.2
  let st := ssHeapBuild F idx pa saIdx m F st (m / 2 - 1)
  let st :=
    if landI size 1 = 0 then ssFixDown F idx pa saIdx 0 m (st.swap saIdx (saIdx + m))
    else st
  ssHeapExtract F idx pa saIdx F st (m - 1)

/-- Forward scan of ssPartition (lines 1404-1409): tag and advance while
the substring at a reaches its bound at this depth. -/
def ssPartALoop (pa pb d : Int) : Nat → Core → Int → Int → Core × Int
  | 0, st, a, _ => (st, a)
  | k + 1, st, a, b =>
    if a < b ∧ st.sget (pa + st.sget a) + d ≥ st.sget (pb + st.sget a) then
      ssPartALoop pa pb d k (st.sset a (cpl (st.sget a))) (a + 1) b
    else (st, a)

/-- Backward scan of ssPartition (lines 1411-1414). -/
def ssPartBLoop (pa pb d : Int) (st : Core) : Nat → Int → Int → Int
  | 0, _, b => b
  | k + 1, a, b =>
    if b > a ∧ st.sget (pa + st.sget b) + d < st.sget (pb + st.sget b) then
      ssPartBLoop pa pb d st k a (b - 1)
    else b

/-- Exchange loop of ssPartition, DivSufSort.cpp lines 1403-1422. -/
def ssPartLoop (F : Nat) (pa pb d : Int) : Nat → Core → Int → Int → Core × Int
  | 0, st, a, _ => (st, a)
  | k + 1, st, a, b =>
    let a := a + 1
    let p := ssPartALoop pa pb d F st a b
    let st := p.1
    let a := p.2
    let b := b - 1
    let b := ssPartBLoop pa pb d st F a b
    if b ≤ a then (st, a)
    else
      let t := cpl (st.sget b)
      let st := st.sset b (st.sget a)
      let st := st.sset a t
      ssPartLoop F pa pb d k st a b

/-- ssPartition, DivSufSort.cpp lines 1396-1428: splits the range into
substrings that end at this depth (tagged, moved to the front) and the
rest; returns the split point. -/
def ssPartition (F : Nat) (pa first last depth : Int) (st : Core) : Core × Int :=
  let p := ssPartLoop F pa (pa + 1) (depth - 1) F st (first - 1) last
  let st := p.1
  let a := p.2
  let st := if first < a then st.sset first (cpl (st.sget first)) else st
  (st, a)

/-- ssMedian3, DivSufSort.cpp lines 1378-1394. -/
def ssMedian3 (st : Core) (idx pa v1 v2 v3 : Int) : Int :=
  let key := fun v => st.bget (idx + st.sget (pa + st.sget v))
  let p := if key v1 > key v2 then (v2, v1) else (v1, v2)
  let v1 := p.1
  let v2 := p.2
  if key v2 > key v3 then (if key v1 > key v3 then v1 else v3) else v2

/-- ssMedian5, DivSufSort.cpp lines 1334-1376. -/
def ssMedian5 (st : Core) (idx pa w1 w2 w3 w4 w5 : Int) : Int :=
  let key := fun v => st.bget (idx + st.sget (pa + st.sget v))
  let p1 := if key w2 > key w3 then (w3, w2) else (w2, w3)
  let v2 := p1.1
  let v3 := p1.2
  let p2 := if key w4 > key w5 then (w5, w4) else (w4, w5)
  let v4 := p2.1
  let v5 := p2.2
  let p3 := if key v2 > key v4 then (v4, v2, v5, v3) else (v2, v4, v3, v5)
  let v4 := p3.2.1
  let v3 := p3.2.2.1
  let v5 := p3.2.2.2
  let p4 := if key w1 > key v3 then (v3, w1) else (w1, v3)
  let v1 := p4.1
  let v3 := p4.2
  let p5 := if key v1 > key v4 then (v4, v1, v5, v3) else (v1, v4, v3, v5)
  let v3 := p5.2.2.1
  let v4 := p5.2.1
  if key v3 > key v4 then v4 else v3

/-- ssPivot, DivSufSort.cpp lines 1318-1332. -/
def ssPivot (st : Core) (td pa first last : Int) : Int :=
  let t := last - first
  let middle := first + t / 2
  if t ≤ 512 then
    if t ≤ 32 then ssMedian3 st td pa first middle (last - 1)
    else ssMedian5 st td pa first (first + t / 4) middle (last - 1 - t / 4) (last - 1)
  else
    let t := t / 8
    let f := ssMedian3 st td pa first (first + t) (first + 2 * t)
    let md := ssMedian3 st td pa (middle - t) middle (middle + t)
    let l := ssMedian3 st td pa (last - 1 - 2 * t) (last - 1 - t) (last - 1)
    ssMedian3 st td pa f md l

/-- Element-by-element swap of two ranges, the two vectored-swap loops at
DivSufSort.cpp lines 1251-1252 and 1256-1257 (and 1619-1628). -/
def swapRange : Nat → Core → Int → Int → Int → Core
  | 0, st, _, _, _ => st
  | k + 1, st, e, f, s =>
    if s > 0 then swapRange k (st.swap e f) (e + 1) (f + 1) (s - 1) else st

/-- Equal-run scan of the negative-limit branch of ssMultiKeyIntroSort
(lines 1133-1143): walk right while the key equals v, restarting the
range on the first key change seen within one element. -/
def ssMKIScan (st : Core) (idx pa last : Int) : Nat → Int → Int → Int → Int × Int × Int
  | 0, a, v, first => (a, v, first)
  | k + 1, a, v, first =>
    if a < last then
      let x := st.bget (idx + st.sget (pa + st.sget a))
      if x ≠ v then
        if a - first > 1 then (a, v, first)
        else ssMKIScan st idx pa last k (a + 1) x a
      else ssMKIScan st idx pa last k (a + 1) v first
    else (a, v, first)

/-- First forward scan of the ternary partition (lines 1183-1186): step b
while the key equals the pivot. -/
def ssMKPartB1 (st : Core) (idx pa v bound : Int) : Nat → Int → Int → Int × Int
  | 0, b, x => (b, x)
  | k + 1, b, x =>
    let b := b + 1
    if b < bound then
      let x2 := st.bget (idx + st.sget (pa + st.sget b))
      if x2 ≠ v then (b, x2) else ssMKPartB1 st idx pa v bound k b x2
    else (b, x)

/-- Forward scan with equal-to-pivot swaps (lines 1191-1199 and
1226-1234). -/
def ssMKPartB2 (idx pa v bound : Int) : Nat → Core → Int → Int → Int → Core × Int × Int × Int
  | 0, st, a, b, x => (st, a, b, x)
  | k + 1, st, a, b, x =>
    let b := b + 1
    if b < bound then
      let x2 := st.bget (idx + st.sget (pa + st.sget b))
      if x2 > v then (st, a, b, x2)
      else if x2 = v then ssMKPartB2 idx pa v bound k (st.swap b a) (a + 1) b x2
      else ssMKPartB2 idx pa v bound k st a b x2
    else (st, a, b, x)

/-- First backward scan of the ternary partition (lines 1204-1207). -/
def ssMKPartC1 (st : Core) (idx pa v bound : Int) : Nat → Int → Int → Int × Int
  | 0, c, x => (c, x)
  | k + 1, c, x =>
    let c := c - 1
    if c > bound then
      let x2 := st.bget (idx + st.sget (pa + st.sget c))
      if x2 ≠ v then (c, x2) else ssMKPartC1 st idx pa v bound k c x2
    else (c, x)

/-- Backward scan with equal-to-pivot swaps (lines 1212-1220 and
1236-1244). -/
def ssMKPartC2 (idx pa v bound : Int) : Nat → Core → Int → Int → Int → Core × Int × Int × Int
  | 0, st, c, d, x => (st, c, d, x)
  | k + 1, st, c, d, x =>
    let c := c - 1
    if c > bound then
      let x2 := st.bget (idx + st.sget (pa + st.sget c))
      if x2 < v then (st, c, d, x2)
      else if x2 = v then ssMKPartC2 idx pa v bound k (st.swap c d) c (d - 1) x2
      else ssMKPartC2 idx pa v bound k st c d x2
    else (st, c, d, x)

/-- Central exchange loop of the ternary partition (lines 1223-1245). -/
def ssMKPartMain (F : Nat) (idx pa v : Int) :
    Nat → Core → Int → Int → Int → Int → Core × Int × Int × Int × Int
  | 0, st, a, b, c, d => (st, a, b, c, d)
  | k + 1, st, a, b, c, d =>
    if b < c then
      let st := st.swap b c
      let p := ssMKPartB2 idx pa v c F st a b 0
      let st := p.1
      let a := p.2.1
      let b := p.2.2.1
      let q := ssMKPartC2 idx pa v b F st c d 0
      let st := q.1
      let c := q.2.1
      let d := q.2.2.1
      ssMKPartMain F idx pa v k st a b c d
    else (st, a, b, c, d)

/-- Main loop of ssMultiKeyIntroSort, DivSufSort.cpp lines 1102-1316:
multikey introsort over the depth-th byte with explicit stack, heapsort
fallback when the recursion budget limit hits zero, and equal-run
splitting through ssPartition in the negative-limit branch. -/
def ssMKILoop (F : Nat) (pa : Int) : Nat → Core → Int → Int → Int → Int → Core
  | 0, st, _, _, _, _ => st
  | fl + 1, st, first, last, depth, limit =>
    withCore st fun st => withInt first fun first => withInt last fun last =>
    withInt depth fun depth => withInt limit fun limit =>
    if last - first ≤ SS_INSERTIONSORT_THRESHOLD then
      let st := if last - first > 1 then ssInsertionSort F pa first last depth st else st
      match st.ssPop with
      | none => st
      | some (se, st) => ssMKILoop F pa fl st se.a se.b se.c se.d
    else
      let idx := depth
      let st := if limit = 0 then ssHeapSort F idx pa first (last - first) st else st
      let limit := limit - 1
      if limit < 0 then
        let v := st.bget (idx + st.sget (pa + st.sget first))
        let sc := ssMKIScan st idx pa last F (first + 1) v first
        let a := sc.1
        let v := sc.2.1
        let first := sc.2.2
        let pr :=
          if st.bget (idx + st.sget (pa + st.sget first) - 1) < v then
            ssPartition F pa first a depth st
          else (st, first)
        let st := pr.1
        let first := pr.2
        if a - first ≤ last - a then
          if a - first > 1 then
            let st := st.ssPush a last depth (-1) 0
            ssMKILoop F pa fl st first a (depth + 1) (ssIlg (a - first))
          else
            ssMKILoop F pa fl st a last depth (-1)
        else
          if last - a > 1 then
            let st := st.ssPush first a (depth + 1) (ssIlg (a - first)) 0
            ssMKILoop F pa fl st a last depth (-1)
          else
            ssMKILoop F pa fl st first a (depth + 1) (ssIlg (a - first))
      else
        let aP := ssPivot st idx pa first last
        let v := st.bget (idx + st.sget (pa + st.sget aP))
        let st := st.swap first aP
        let p1 := ssMKPartB1 st idx pa v last F first 0
        let b := p1.1
        let x := p1.2
        let a := b
        let p2 := if a < last ∧ x < v then ssMKPartB2 idx pa v last F st a b x else (st, a, b, x)
        let st := p2.1
        let a := p2.2.1
        let b := p2.2.2.1
        let p3 := ssMKPartC1 st idx pa v b F last 0
        let c := p3.1
        let x := p3.2
        let d := c
        let p4 := if b < d ∧ x > v then ssMKPartC2 idx pa v b F st c d x else (st, c, d, x)
        let st := p4.1
        let c := p4.2.1
        let d := p4.2.2.1
        let pm := ssMKPartMain F idx pa v F st a b c d
        let st := pm.1
        let a := pm.2.1
        let b := pm.2.2.1
        let d := pm.2.2.2.2
        if a ≤ d then
          let c := b - 1
          let s := if a - first > b - a then b - a else a - first
          let st := swapRange F st first (b - s) s
          let s := if d - c > last - d - 1 then last - d - 1 else d - c
          let st := swapRange F st b (last - s) s
          let a := first + (b - a)
          let c := last - (d - c)
          let pb2 :=
            if v ≤ st.bget (idx + st.sget (pa + st.sget a) - 1) then (st, a)
            else ssPartition F pa a c depth st
          let st := pb2.1
          let b := pb2.2
          if a - first ≤ last - c then
            if last - c ≤ c - b then
              let st := st.ssPush b c (depth + 1) (ssIlg (c - b)) 0
              let st := st.ssPush c last depth limit 0
              ssMKILoop F pa fl st first a depth limit
            else if a - first ≤ c - b then
              let st := st.ssPush c last depth limit 0
              let st := st.ssPush b c (depth + 1) (ssIlg (c - b)) 0
              ssMKILoop F pa fl st first a depth limit
            else
              let st := st.ssPush c last depth limit 0
              let st := st.ssPush first a depth limit 0
              ssMKILoop F pa fl st b c (depth + 1) (ssIlg (c - b))
          else
            if a - first ≤ c - b then
              let st := st.ssPush b c (depth + 1) (ssIlg (c - b)) 0
              let st := st.ssPush first a depth limit 0
              ssMKILoop F pa fl st c last depth limit
            else if last - c ≤ c - b then
              let st := st.ssPush first a depth limit 0
              let st := st.ssPush b c (depth + 1) (ssIlg (c - b)) 0
              ssMKILoop F pa fl st c last depth limit
            else
              let st := st.ssPush first a depth limit 0
              let st := st.ssPush c last depth limit 0
              ssMKILoop F pa fl st b c (depth + 1) (ssIlg (c - b))
        else
          if st.bget (idx + st.sget (pa + st.sget first) - 1) < v then
            let pp := ssPartition F pa first last depth st
            let st := pp.1
            let first := pp.2
            ssMKILoop F pa fl st first last (depth + 1) (ssIlg (last - first))
          else
            ssMKILoop F pa fl st first last (depth + 1) (limit + 1)

/-- ssMultiKeyIntroSort, DivSufSort.cpp lines 1102-1316. -/
def ssMultiKeyIntroSort (F : Nat) (pa first last depth : Int) (st : Core) : Core :=
  ssMKILoop F pa F st first last depth (ssIlg (last - first))

/-- ssBlockSwap, DivSufSort.cpp lines 664-674. -/
def ssBlockSwap (st : Core) : Nat → Int → Int → Int → Core
  | 0, _, _, _ => st
  | k + 1, a, b, n =>
    if n > 0 then ssBlockSwap (st.swap a b) k (a + 1) (b + 1) (n - 1) else st

/-- Juggling loop of ssRotate when the left part is shorter (lines
616-636).  On each step the write at the pre-decrement position is
followed by a read of the freshly decremented cursor, exactly as the two
post-decrement statements of the source do.  Returns the updated state,
last and r. -/
def ssRotateLT (first middle l : Int) : Nat → Core → Int → Int → Int → Int → Int → Core × Int × Int
  | 0, st, _, _, _, last, r => (st, last, r)
  | k + 1, st, a, b, t, last, r =>
    let st := st.sset a (st.sget b)
    let a := a - 1
    let st := st.sset b (st.sget a)
    let b := b - 1
    if b < first then
      let st := st.sset a t
      let last := a
      let r := r - (l + 1)
      if r ≤ l then (st, last, r)
      else
        let a := a - 1
        ssRotateLT first middle l k st a (middle - 1) (st.sget a) last r
    else ssRotateLT first middle l k st a b t last r

/-- Juggling loop of ssRotate when the right part is shorter (lines
639-659). -/
def ssRotateGT (middle last r : Int) : Nat → Core → Int → Int → Int → Int → Int → Core × Int × Int
  | 0, st, _, _, _, first, l => (st, first, l)
  | k + 1, st, a, b, t, first, l =>
    let st := st.sset a (st.sget b)
    let a := a + 1
    let st := st.sset b (st.sget a)
    let b := b + 1
    if last ≤ b then
      let st := st.sset a t
      let first := a + 1
      let l := l - (r + 1)
      if l ≤ r then (st, first, l)
      else
        let a := a + 1
        ssRotateGT middle last r k st a middle (st.sget a) first l
    else ssRotateGT middle last r k st a b t first l

/-- Outer loop of ssRotate, DivSufSort.cpp lines 604-662. -/
def ssRotateLoop (F : Nat) : Nat → Core → Int → Int → Int → Int → Int → Core
  | 0, st, _, _, _, _, _ => st
  | k + 1, st, first, middle, last, l, r =>
    if l > 0 ∧ r > 0 then
      if l = r then ssBlockSwap st F first middle l
      else if l < r then
        let p := ssRotateLT first middle l F st (last - 1) (middle - 1) (st.sget (last - 1)) last r
        ssRotateLoop F k p.1 first middle p.2.1 l p.2.2
      else
        let p := ssRotateGT middle last r F st first middle (st.sget first) first l
        ssRotateLoop F k p.1 p.2.1 middle last p.2.2 r
    else st

/-- ssRotate, DivSufSort.cpp lines 604-662. -/
def ssRotate (F : Nat) (first middle last : Int) (st : Core) : Core :=
  ssRotateLoop F F st first middle last (middle - first) (last - middle)

/-- Buffer-copy run of ssMergeForward (lines 839-848 and 870-879): move
entries from the buffer cursor b into position, stopping with a final
buffer restore when the buffer is drained; the Bool reports that the
whole merge is finished. -/
def ssMFCopyB (bufEnd t : Int) : Nat → Core → Int → Int → Core × Int × Int × Bool
  | 0, st, a, b => (st, a, b, false)
  | k + 1, st, a, b =>
    let st := st.sset a (st.sget b)
    let a := a + 1
    if bufEnd ≤ b then (st.sset bufEnd t, a, b, true)
    else
      let st := st.sset b (st.sget a)
      let b := b + 1
      if st.sget b < 0 then ssMFCopyB bufEnd t k st a b else (st, a, b, false)

/-- Drain of the remaining buffer at the end of ssMergeForward (lines
856-862 and 886-892). -/
def ssMFDrain (bufEnd t : Int) : Nat → Core → Int → Int → Core
  | 0, st, _, _ => st
  | k + 1, st, a, b =>
    if b < bufEnd then
      let st := st.sset a (st.sget b)
      let a := a + 1
      let st := st.sset b (st.sget a)
      let b := b + 1
      ssMFDrain bufEnd t k st a b
    else (st.sset a (st.sget b)).sset b t

/-- Right-run copy of ssMergeForward (lines 851-865 and 881-895). -/
def ssMFCopyC (F : Nat) (last bufEnd t : Int) : Nat → Core → Int → Int → Int → Core × Int × Int × Int × Bool
  | 0, st, a, b, c => (st, a, b, c, false)
  | k + 1, st, a, b, c =>
    let st := st.sset a (st.sget c)
    let a := a + 1
    let st := st.sset c (st.sget a)
    let c := c + 1
    if last ≤ c then (ssMFDrain bufEnd t F st a b, a, b, c, true)
    else if st.sget c < 0 then ssMFCopyC F last bufEnd t k st a b c
    else (st, a, b, c, false)

/-- Main loop of ssMergeForward, DivSufSort.cpp lines 835-897. -/
def ssMFLoop (F : Nat) (pa depth last bufEnd t : Int) : Nat → Core → Int → Int → Int → Core
  | 0, st, _, _, _ => st
  | k + 1, st, a, b, c =>
    let r := ssCompare F st (pa + st.sget b) (pa + st.sget c) depth
    if r < 0 then
      let p := ssMFCopyB bufEnd t F st a b
      if p.2.2.2 then p.1 else ssMFLoop F pa depth last bufEnd t k p.1 p.2.1 p.2.2.1 c
    else if r > 0 then
      let p := ssMFCopyC F last bufEnd t F st a b c
      if p.2.2.2.2 then p.1
      else ssMFLoop F pa depth last bufEnd t k p.1 p.2.1 p.2.2.1 p.2.2.2.1
    else
      let st := st.sset c (cpl (st.sget c))
      let p := ssMFCopyB bufEnd t F st a b
      if p.2.2.2 then p.1
      else
        let q := ssMFCopyC F last bufEnd t F p.1 p.2.1 p.2.2.1 c
        if q.2.2.2.2 then q.1
        else ssMFLoop F pa depth last bufEnd t k q.1 q.2.1 q.2.2.1 q.2.2.2.1

/-- ssMergeForward, DivSufSort.cpp lines 825-898. -/
def ssMergeForward (F : Nat) (pa first middle last buf depth : Int) (st : Core) : Core :=
  let bufEnd := buf + middle - first - 1
  let st := ssBlockSwap st F buf first (middle - first)
  let t := st.sget first
  ssMFLoop F pa depth last bufEnd t F st first buf middle

/-- Flush of a tagged run through the buffer cursor in ssMergeBackward
(lines 932-935, 990-993). -/
def ssMBFlushB : Nat → Core → Int → Int → Core × Int × Int
  | 0, st, a, b => (st, a, b)
  | k + 1, st, a, b =>
    let st := st.sset a (st.sget b)
    let a := a - 1
    let st := st.sset b (st.sget a)
    let b := b - 1
    if st.sget b < 0 then ssMBFlushB k st a b else (st, a, b)

/-- Flush of a tagged run through the left cursor in ssMergeBackward
(lines 958-961, 1008-1011). -/
def ssMBFlushC : Nat → Core → Int → Int → Core × Int × Int
  | 0, st, a, c => (st, a, c)
  | k + 1, st, a, c =>
    let st := st.sset a (st.sget c)
    let a := a - 1
    let st := st.sset c (st.sget a)
    let c := c - 1
    if st.sget c < 0 then ssMBFlushC k st a c else (st, a, c)

/-- Final drain of ssMergeBackward when the left run is exhausted (lines
969-977, 1019-1027). -/
def ssMBDrain (buf t : Int) : Nat → Core → Int → Int → Core
  | 0, st, _, _ => st
  | k + 1, st, a, b =>
    if buf < b then
      let st := st.sset a (st.sget b)
      let a := a - 1
      let st := st.sset b (st.sget a)
      let b := b - 1
      ssMBDrain buf t k st a b
    else (st.sset a (st.sget b)).sset b t

/-- Main loop of ssMergeBackward, DivSufSort.cpp lines 927-1044.  The
loop state carries the two lead references p1 and p2 and the tag flags x
exactly as the source does. -/
def ssMBLoop (F : Nat) (pa depth first buf t : Int) :
    Nat → Core → Int → Int → Int → Int → Int → Int → Core
  | 0, st, _, _, _, _, _, _ => st
  | k + 1, st, a, b, c, p1, p2, x =>
    let r := ssCompare F st p1 p2 depth
    if r > 0 then
      let p :=
        if landI x 1 ≠ 0 then
          let q := ssMBFlushB F st a b
          (q.1, q.2.1, q.2.2, xorI x 1)
        else (st, a, b, x)
      let st := p.1
      let a := p.2.1
      let b := p.2.2.1
      let x := p.2.2.2
      let st := st.sset a (st.sget b)
      let a := a - 1
      if b ≤ buf then st.sset buf t
      else
        let st := st.sset b (st.sget a)
        let b := b - 1
        let pp := if st.sget b < 0 then (pa + cpl (st.sget b), lorI x 1) else (pa + st.sget b, x)
        ssMBLoop F pa depth first buf t k st a b c pp.1 p2 pp.2
    else if r < 0 then
      let p :=
        if landI x 2 ≠ 0 then
          let q := ssMBFlushC F st a c
          (q.1, q.2.1, q.2.2, xorI x 2)
        else (st, a, c, x)
      let st := p.1
      let a := p.2.1
      let c := p.2.2.1
      let x := p.2.2.2
      let st := st.sset a (st.sget c)
      let a := a - 1
      let st := st.sset c (st.sget a)
      let c := c - 1
      if c < first then ssMBDrain buf t F st a b
      else
        let pp := if st.sget c < 0 then (pa + cpl (st.sget c), lorI x 2) else (pa + st.sget c, x)
        ssMBLoop F pa depth first buf t k st a b c p1 pp.1 pp.2
    else
      let p :=
        if landI x 1 ≠ 0 then
          let q := ssMBFlushB F st a b
          (q.1, q.2.1, q.2.2, xorI x 1)
        else (st, a, b, x)
      let st := p.1
      let a := p.2.1
      let b := p.2.2.1
      let x := p.2.2.2
      let st := st.sset a (cpl (st.sget b))
      let a := a - 1
      if b ≤ buf then st.sset buf t
      else
        let st := st.sset b (st.sget a)
        let b := b - 1
        let p2b :=
          if landI x 2 ≠ 0 then
            let q := ssMBFlushC F st a c
            (q.1, q.2.1, q.2.2, xorI x 2)
          else (st, a, c, x)
        let st := p2b.1
        let a := p2b.2.1
        let c := p2b.2.2.1
        let x := p2b.2.2.2
        let st := st.sset a (st.sget c)
        let a := a - 1
        let st := st.sset c (st.sget a)
        let c := c - 1
        if c < first then ssMBDrain buf t F st a b
        else
          let q1 := if st.sget b < 0 then (pa + cpl (st.sget b), lorI x 1) else (pa + st.sget b, x)
          let x := q1.2
          let q2 := if st.sget c < 0 then (pa + cpl (st.sget c), lorI x 2) else (pa + st.sget c, x)
          ssMBLoop F pa depth first buf t k st a b c q1.1 q2.1 q2.2

/-- ssMergeBackward, DivSufSort.cpp lines 900-1045. -/
def ssMergeBackward (F : Nat) (pa first middle last buf depth : Int) (st : Core) : Core :=
  let bufEnd := buf + last - middle - 1
  let st := ssBlockSwap st F buf middle (last - middle)
  let p1x :=
    if st.sget bufEnd < 0 then (pa + cpl (st.sget bufEnd), (1 : Int))
    else (pa + st.sget bufEnd, (0 : Int))
  let p2x :=
    if st.sget (middle - 1) < 0 then (pa + cpl (st.sget (middle - 1)), lorI p1x.2 2)
    else (pa + st.sget (middle - 1), p1x.2)
  let a := last - 1
  let t := st.sget a
  ssMBLoop F pa depth first buf t F st a bufEnd (middle - 1) p1x.1 p2x.1 p2x.2

/-- Boundary tagging performed before every pop of ssSwapMerge (lines
686-696, 714-724, 800-810): bit 1 of check forces a tag at first, bit 2
tags first on an equal comparison with its left neighbour, bit 4 does the
same at last. -/
def ssSMFinish (F : Nat) (pa depth first last check : Int) (st : Core) : Core :=
  let st :=
    if landI check 1 ≠ 0 ∨
        (landI check 2 ≠ 0 ∧
          ssCompare F st (pa + getIndex (st.sget (first - 1))) (pa + st.sget first) depth = 0) then
      st.sset first (cpl (st.sget first))
    else st
  if landI check 4 ≠ 0 ∧
      ssCompare F st (pa + getIndex (st.sget (last - 1))) (pa + st.sget last) depth = 0 then
    st.sset last (cpl (st.sget last))
  else st

/-- Binary search for the swap width m in ssSwapMerge (lines 738-746). -/
def ssSMSearch (F : Nat) (pa depth middle : Int) (st : Core) : Nat → Int → Int → Int → Int
  | 0, m, _, _ => m
  | k + 1, m, half, len =>
    if len > 0 then
      let p :=
        if ssCompare F st (pa + getIndex (st.sget (middle + m + half)))
            (pa + getIndex (st.sget (middle - m - half - 1))) depth < 0 then
          (m + half + 1, half - xorI (landI len 1) 1)
        else (m, half)
      ssSMSearch F pa depth middle st k p.1 (p.2 / 2) p.2
    else m

/-- Downward skip over tagged entries (line 763-764). -/
def ssSMSkipDown (st : Core) : Nat → Int → Int
  | 0, l => l
  | k + 1, l => if st.sget l < 0 then ssSMSkipDown st k (l - 1) else l

/-- Upward skip over tagged entries (line 772-773). -/
def ssSMSkipUp (st : Core) : Nat → Int → Int
  | 0, r => r
  | k + 1, r => if st.sget r < 0 then ssSMSkipUp st k (r + 1) else r

/-- Main loop of ssSwapMerge, DivSufSort.cpp lines 676-823. -/
def ssSMLoop (F : Nat) (pa buf bufSize depth : Int) : Nat → Core → Int → Int → Int → Int → Core
  | 0, st, _, _, _, _ => st
  | k + 1, st, first, middle, last, check =>
    if last - middle ≤ bufSize then
      let st :=
        if first < middle ∧ middle < last then ssMergeBackward F pa first middle last buf depth st
        else st
      let st := ssSMFinish F pa depth first last check st
      match st.mgPop with
      | none => st
      | some (se, st) => ssSMLoop F pa buf bufSize depth k st se.a se.b se.c se.d
    else if middle - first ≤ bufSize then
      let st := if first < middle then ssMergeForward F pa first middle last buf depth st else st
      let st := ssSMFinish F pa depth first last check st
      match st.mgPop with
      | none => st
      | some (se, st) => ssSMLoop F pa buf bufSize depth k st se.a se.b se.c se.d
    else
      let len := if middle - first < last - middle then middle - first else last - middle
      let m := ssSMSearch F pa depth middle st F 0 (len / 2) len
      if m > 0 then
        let lm := middle - m
        let rm := middle + m
        let st := ssBlockSwap st F lm middle m
        let p :=
          if rm < last then
            if st.sget rm < 0 then
              let st := st.sset rm (cpl (st.sget rm))
              if first < lm then
                let l := ssSMSkipDown st F (middle - 1)
                (st, l, middle, lorI 4 1)
              else (st, middle, middle, (1 : Int))
            else
              if first < lm then
                let r := ssSMSkipUp st F middle
                (st, middle, r, (2 : Int))
              else (st, middle, middle, (0 : Int))
          else (st, middle, middle, (0 : Int))
        let st := p.1
        let l := p.2.1
        let r := p.2.2.1
        let next := p.2.2.2
        if l - first ≤ last - r then
          let st := st.mgPush r rm last (lorI (landI next 3) (landI check 4)) 0
          ssSMLoop F pa buf bufSize depth k st first lm l (lorI (landI check 3) (landI next 4))
        else
          let next := if r = middle ∧ landI next 2 ≠ 0 then xorI next 6 else next
          let st := st.mgPush first lm l (lorI (landI check 3) (landI next 4)) 0
          ssSMLoop F pa buf bufSize depth k st r rm last (lorI (landI next 3) (landI check 4))
      else
        let st :=
          if ssCompare F st (pa + getIndex (st.sget (middle - 1))) (pa + st.sget middle) depth = 0 then
            st.sset middle (cpl (st.sget middle))
          else st
        let st := ssSMFinish F pa depth first last check st
        match st.mgPop with
        | none => st
        | some (se, st) => ssSMLoop F pa buf bufSize depth k st se.a se.b se.c se.d

/-- ssSwapMerge, DivSufSort.cpp lines 676-823. -/
def ssSwapMerge (F : Nat) (pa first middle last buf bufSize depth : Int) (st : Core) : Core :=
  ssSMLoop F pa buf bufSize depth F st first middle last 0

/-- Binary search of ssInplaceMerge (lines 566-576), returning the
insertion point a and the last non-negative comparison result r. -/
def ssIMSearch (F : Nat) (pa depth p : Int) (st : Core) : Nat → Int → Int → Int → Int → Int × Int
  | 0, a, r, _, _ => (a, r)
  | k + 1, a, r, half, len =>
    if len > 0 then
      let b := a + half
      let q := ssCompare F st (pa + (if st.sget b ≥ 0 then st.sget b else cpl (st.sget b))) p depth
      let p3 :=
        if q < 0 then (b + 1, r, half - xorI (landI len 1) 1)
        else (a, q, half)
      ssIMSearch F pa depth p st k p3.1 p3.2.1 (p3.2.2 / 2) p3.2.2
    else (a, r)

/-- Skip of tagged entries when the last element was tagged (lines
595-596). -/
def ssIMSkipNeg (st : Core) : Nat → Int → Int
  | 0, l => l
  | k + 1, l => if st.sget l < 0 then ssIMSkipNeg st k (l - 1) else l

/-- Main loop of ssInplaceMerge, DivSufSort.cpp lines 549-602. -/
def ssIMLoop (F : Nat) (pa depth first : Int) : Nat → Core → Int → Int → Core
  | 0, st, _, _ => st
  | k + 1, st, middle, last =>
    let xp :=
      if st.sget (last - 1) < 0 then ((1 : Int), pa + cpl (st.sget (last - 1)))
      else ((0 : Int), pa + st.sget (last - 1))
    let x := xp.1
    let p := xp.2
    let ar := ssIMSearch F pa depth p st F first (-1) ((middle - first) / 2) (middle - first)
    let a := ar.1
    let r := ar.2
    let q :=
      if a < middle then
        let st := if r = 0 then st.sset a (cpl (st.sget a)) else st
        let st := ssRotate F a middle last st
        let last := last - (middle - a)
        let middle := a
        (st, middle, last, first == middle)
      else (st, middle, last, false)
    let st := q.1
    let middle := q.2.1
    let last := q.2.2.1
    if q.2.2.2 then st
    else
      let last := last - 1
      let last := if x ≠ 0 then ssIMSkipNeg st F (last - 1) else last
      if middle = last then st else ssIMLoop F pa depth first k st middle last

/-- ssInplaceMerge, DivSufSort.cpp lines 549-602. -/
def ssInplaceMerge (F : Nat) (pa first middle last depth : Int) (st : Core) : Core :=
  ssIMLoop F pa depth first F st middle last

/-- Block loop of ssSort (lines 453-474): introsort each full block and
fold completed blocks together with binary-counter merging. -/
def ssSortBinMerge (F : Nat) (pa depth curBuf curBufSize : Int) : Nat → Core → Int → Int → Nat → Core
  | 0, st, _, _, _ => st
  | fl + 1, st, b, k, j =>
    if j % 2 = 1 then
      let st := ssSwapMerge F pa (b - k) b (b + k) curBuf curBufSize depth st
      ssSortBinMerge F pa depth curBuf curBufSize fl st (b - k) (2 * k) (j / 2)
    else st

/-- Outer block loop of ssSort (lines 453-474). -/
def ssSortBlocks (F : Nat) (pa last buf bufSize depth middle : Int) : Nat → Core → Int → Nat → Core × Int × Nat
  | 0, st, a, i => (st, a, i)
  | fl + 1, st, a, i =>
    if middle - a > SS_BLOCKSIZE then
      let st := ssMultiKeyIntroSort F pa a (a + SS_BLOCKSIZE) depth st
      let curBufSize := last - (a + SS_BLOCKSIZE)
      let p :=
        if curBufSize > bufSize then (a + SS_BLOCKSIZE, curBufSize) else (buf, bufSize)
      let st := ssSortBinMerge F pa depth p.1 p.2 F st a SS_BLOCKSIZE i
      ssSortBlocks F pa last buf bufSize depth middle fl st (a + SS_BLOCKSIZE) (i + 1)
    else (st, a, i)

/-- Final binary-counter merge of ssSort (lines 478-484). -/
def ssSortMergeAll (F : Nat) (pa middle buf bufSize depth : Int) : Nat → Core → Int → Int → Nat → Core × Int
  | 0, st, a, _, _ => (st, a)
  | fl + 1, st, a, k, i =>
    if i ≠ 0 then
      if i % 2 = 0 then ssSortMergeAll F pa middle buf bufSize depth fl st a (2 * k) (i / 2)
      else
        let st := ssSwapMerge F pa (a - k) a middle buf bufSize depth st
        ssSortMergeAll F pa middle buf bufSize depth fl st (a - k) (2 * k) (i / 2)
    else (st, a)

/-- Insertion scan for the excluded last suffix (lines 496-497). -/
def ssSortLastLoop (F : Nat) (pa depth last p1 p11 : Int) : Nat → Core → Int → Core × Int
  | 0, st, a => (st, a)
  | fl + 1, st, a =>
    if a < last ∧ (st.sget a < 0 ∨ ssCompare4 F st p1 p11 (pa + st.sget a) depth > 0) then
      ssSortLastLoop F pa depth last p1 p11 fl (st.sset (a - 1) (st.sget a)) (a + 1)
    else (st, a)

/-- ssSort, DivSufSort.cpp lines 425-501: sort one two-byte bucket of
B-star substrings by blockwise multikey introsort plus merging, with the
special pre-exclusion and post-insertion of the suffix at position n-1. -/
def ssSort (F : Nat) (pa first last buf bufSize depth n : Int) (lastSuffix : Bool) (st : Core) : Core :=
  let first := if lastSuffix then first + 1 else first
  let q :=
    if bufSize < SS_BLOCKSIZE ∧ bufSize < last - first then
      let limit := ssIsqrt (last - first)
      if bufSize < limit then
        let limit := if limit > SS_BLOCKSIZE then SS_BLOCKSIZE else limit
        (limit, last - limit, last - limit, limit)
      else ((0 : Int), last, buf, bufSize)
    else ((0 : Int), last, buf, bufSize)
  let limit := q.1
  let middle := q.2.1
  let buf := q.2.2.1
  let bufSize := q.2.2.2
  let pb := ssSortBlocks F pa last buf bufSize depth middle F st first 0
  let st := pb.1
  let a := pb.2.1
  let i := pb.2.2
  let st := ssMultiKeyIntroSort F pa a middle depth st
  let pm := ssSortMergeAll F pa middle buf bufSize depth F st a SS_BLOCKSIZE i
  let st := pm.1
  let st :=
    if limit ≠ 0 then
      let st := ssMultiKeyIntroSort F pa middle last depth st
      ssInplaceMerge F pa first middle last depth st
    else st
  if lastSuffix then
    let i2 := st.sget (first - 1)
    let p1 := st.sget (pa + i2)
    let p11 := n - 2
    let pl := ssSortLastLoop F pa depth last p1 p11 F st first
    pl.1.sset (pl.2 - 1) i2
  else st

/-- First forward rank scan of trPartition (lines 1552-1559). -/
def trPartB1 (st : Core) (isad v last : Int) : Nat → Int → Int → Int × Int
  | 0, b, x => (b, x)
  | k + 1, b, x =>
    if b < last then
      let x2 := st.sget (isad + st.sget b)
      if x2 ≠ v then (b, x2) else trPartB1 st isad v last k (b + 1) x2
    else (b, x)

/-- Forward rank scan with equal-to-pivot swaps (lines 1564-1569 and
1597-1602). -/
def trPartB2 (isad v bound : Int) : Nat → Core → Int → Int → Int → Core × Int × Int × Int
  | 0, st, a, b, x => (st, a, b, x)
  | k + 1, st, a, b, x =>
    let b := b + 1
    if b < bound then
      let x2 := st.sget (isad + st.sget b)
      if x2 > v then (st, a, b, x2)
      else if x2 = v then trPartB2 isad v bound k (st.swap a b) (a + 1) b x2
      else trPartB2 isad v bound k st a b x2
    else (st, a, b, x)

/-- First backward rank scan of trPartition (lines 1574-1581). -/
def trPartC1 (st : Core) (isad v bound : Int) : Nat → Int → Int → Int × Int
  | 0, c, x => (c, x)
  | k + 1, c, x =>
    if c > bound then
      let x2 := st.sget (isad + st.sget c)
      if x2 ≠ v then (c, x2) else trPartC1 st isad v bound k (c - 1) x2
    else (c, x)

/-- Backward rank scan with equal-to-pivot swaps (lines 1586-1591 and
1604-1609). -/
def trPartC2 (isad v bound : Int) : Nat → Core → Int → Int → Int → Core × Int × Int × Int
  | 0, st, c, d, x => (st, c, d, x)
  | k + 1, st, c, d, x =>
    let c := c - 1
    if c > bound then
      let x2 := st.sget (isad + st.sget c)
      if x2 < v then (st, c, d, x2)
      else if x2 = v then trPartC2 isad v bound k (st.swap c d) c (d - 1) x2
      else trPartC2 isad v bound k st c d x2
    else (st, c, d, x)

/-- Central exchange loop of trPartition (lines 1594-1610). -/
def trPartMain (F : Nat) (isad v : Int) :
    Nat → Core → Int → Int → Int → Int → Core × Int × Int × Int × Int
  | 0, st, a, b, c, d => (st, a, b, c, d)
  | k + 1, st, a, b, c, d =>
    if b < c then
      let st := st.swap c b
      let p := trPartB2 isad v c F st a b 0
      let st := p.1
      let a := p.2.1
      let b := p.2.2.1
      let q := trPartC2 isad v b F st c d 0
      let st := q.1
      let c := q.2.1
      let d := q.2.2.1
      trPartMain F isad v k st a b c d
    else (st, a, b, c, d)

/-- trPartition, DivSufSort.cpp lines 1547-1635: ternary partition of the
range by the rank at offset isad; the source packs the two resulting
bounds into one uint64, the model returns them as a pair. -/
def trPartition (F : Nat) (isad first middle last v : Int) (st : Core) : Core × Int × Int :=
  let p1 := trPartB1 st isad v last F middle 0
  let b := p1.1
  let x := p1.2
  let a := b
  let p2 := if a < last ∧ x < v then trPartB2 isad v last F st a b x else (st, a, b, x)
  let st := p2.1
  let a := p2.2.1
  let b := p2.2.2.1
  let p3 := trPartC1 st isad v b F (last - 1) 0
  let c := p3.1
  let x := p3.2
  let d := c
  let p4 := if b < d ∧ x > v then trPartC2 isad v b F st c d x else (st, c, d, x)
  let st := p4.1
  let c := p4.2.1
  let d := p4.2.2.1
  let pm := trPartMain F isad v F st a b c d
  let st := pm.1
  let a := pm.2.1
  let b := pm.2.2.1
  let d := pm.2.2.2.2
  if a ≤ d then
    let c := b - 1
    let s := if a - first > b - a then b - a else a - first
    let st := swapRange F st first (b - s) s
    let s0 := d - c
    let s := if s0 ≥ last - d then last - d - 1 else s0
    let st := swapRange F st b (last - s) s
    (st, first + (b - a), last - (d - c))
  else (st, first, last)

/-- trMedian3, DivSufSort.cpp lines 2102-2118. -/
def trMedian3 (st : Core) (isad v1 v2 v3 : Int) : Int :=
  let key := fun v => st.sget (isad + st.sget v)
  let p := if key v1 > key v2 then (v2, v1) else (v1, v2)
  let v1 := p.1
  let v2 := p.2
  if key v2 > key v3 then (if key v1 > key v3 then v1 else v3) else v2

/-- trMedian5, DivSufSort.cpp lines 2058-2100. -/
def trMedian5 (st : Core) (isad w1 w2 w3 w4 w5 : Int) : Int :=
  let key := fun v => st.sget (isad + st.sget v)
  let p1 := if key w2 > key w3 then (w3, w2) else (w2, w3)
  let v2 := p1.1
  let v3 := p1.2
  let p2 := if key w4 > key w5 then (w5, w4) else (w4, w5)
  let v4 := p2.1
  let v5 := p2.2
  let p3 := if key v2 > key v4 then (v4, v2, v5, v3) else (v2, v4, v3, v5)
  let v4 := p3.2.1
  let v3 := p3.2.2.1
  let v5 := p3.2.2.2
  let p4 := if key w1 > key v3 then (v3, w1) else (w1, v3)
  let v1 := p4.1
  let v3 := p4.2
  let p5 := if key v1 > key v4 then (v4, v1, v5, v3) else (v1, v4, v3, v5)
  let v3 := p5.2.2.1
  let v4 := p5.2.1
  if key v3 > key v4 then v4 else v3

/-- trPivot, DivSufSort.cpp lines 2038-2056. -/
def trPivot (st : Core) (isad first last : Int) : Int :=
  let t := last - first
  let middle := first + t / 2
  if t ≤ 512 then
    if t ≤ 32 then trMedian3 st isad first middle (last - 1)
    else
      let t := t / 4
      trMedian5 st isad first (first + t) middle (last - 1 - t) (last - 1)
  else
    let t := t / 8
    let f := trMedian3 st isad first (first + t) (first + 2 * t)
    let md := trMedian3 st isad (middle - t) middle (middle + t)
    let l := trMedian3 st isad (last - 1 - 2 * t) (last - 1 - t) (last - 1)
    trMedian3 st isad f md l

/-- Sift loop of trFixDown, DivSufSort.cpp lines 2153-2170. -/
def trFixDownLoop (isad saIdx v c size : Int) : Nat → Core → Int → Int → Core × Int
  | 0, st, i, _ => (st, i)
  | fl + 1, st, i, j =>
    if j < size then
      let k := j
      let j := j + 1
      let d := st.sget (isad + st.sget (saIdx + k))
      let e := st.sget (isad + st.sget (saIdx + j))
      let kd := if d < e then (j, e) else (k, d)
      if kd.2 ≤ c then (st, i)
      else
        let st := st.sset (saIdx + i) (st.sget (saIdx + kd.1))
        let i := kd.1
        trFixDownLoop isad saIdx v c size fl st i (2 * i + 1)
    else (st, i)

/-- trFixDown, DivSufSort.cpp lines 2147-2173. -/
def trFixDown (F : Nat) (isad saIdx i size : Int) (st : Core) : Core :=
  let v := st.sget (saIdx + i)
  let c := st.sget (isad + v)
  let p := trFixDownLoop isad saIdx v c size F st i (2 * i + 1)
  p.1.sset (p.2 + saIdx) v

/-- Build phase of trHeapSort (lines 2131-2132). -/
def trHeapBuild (F : Nat) (isad saIdx m : Int) : Nat → Core → Int → Core
  | 0, st, _ => st
  | k + 1, st, i =>
    if i ≥ 0 then trHeapBuild F isad saIdx m k (trFixDown F isad saIdx i m st) (i - 1)
    else st

/-- Extraction phase of trHeapSort (lines 2139-2144). -/
def trHeapExtract (F : Nat) (isad saIdx : Int) : Nat → Core → Int → Core
  | 0, st, _ => st
  | k + 1, st, i =>
    if i > 0 then
      let t := st.sget saIdx
      let st := st.sset saIdx (st.sget (saIdx + i))
      let st := trFixDown F isad saIdx 0 i st
      let st := st.sset (saIdx + i) t
      trHeapExtract F isad saIdx k st (i - 1)
    else st

/-- trHeapSort, DivSufSort.cpp lines 2120-2145. -/
def trHeapSort (F : Nat) (isad saIdx size : Int) (st : Core) : Core :=
  let m := size
  let p :=
    if landI size 1 = 0 then
      let m := m - 1
      let st :=
        if st.sget (isad + st.sget (saIdx + m / 2)) < st.sget (isad + st.sget (saIdx + m)) then
          st.swap (saIdx + m) (saIdx + m / 2)
        else st
      (st, m)
    else (st, m)
  let st := p.1
  let m := p.2
  let st := trHeapBuild F isad saIdx m F st (m / 2 - 1)
  let st :=
    if landI size 1 = 0 then trFixDown F isad saIdx 0 m (st.swap saIdx (saIdx + m))
    else st
  trHeapExtract F isad saIdx F st (m - 1)

/-- Slide loop of trInsertionSort (lines 2183-2186). -/
def trInsShift (first : Int) : Nat → Core → Int → Core × Int
  | 0, st, b => (st, b)
  | k + 1, st, b =>
    let st := st.sset (b + 1) (st.sget b)
    let b := b - 1
    if b ≥ first ∧ st.sget b < 0 then trInsShift first k st b else (st, b)

/-- Comparison loop of trInsertionSort (lines 2182-2192). -/
def trInsWhile (F : Nat) (isad first t : Int) : Nat → Core → Int → Int → Core × Int × Int
  | 0, st, b, r => (st, b, r)
  | k + 1, st, b, r =>
    if r < 0 then
      let p := trInsShift first F st b
      if p.2 < first then (p.1, p.2, r)
      else
        trInsWhile F isad first t k p.1 p.2
          (p.1.sget (isad + t) - p.1.sget (isad + p.1.sget p.2))
    else (st, b, r)

/-- Outer loop of trInsertionSort, DivSufSort.cpp lines 2175-2199. -/
def trInsertionSortLoop (F : Nat) (isad first last : Int) : Nat → Core → Int → Core
  | 0, st, _ => st
  | k + 1, st, a =>
    if a < last then
      let b := a - 1
      let t := st.sget a
      let r := st.sget (isad + t) - st.sget (isad + st.sget b)
      let p := trInsWhile F isad first t F st b r
      let st := p.1
      let b := p.2.1
      let r := p.2.2
      let st := if r = 0 then st.sset b (cpl (st.sget b)) else st
      let st := st.sset (b + 1) t
      trInsertionSortLoop F isad first last k st (a + 1)
    else st

/-- trInsertionSort, DivSufSort.cpp lines 2175-2199. -/
def trInsertionSort (F : Nat) (isad first last : Int) (st : Core) : Core :=
  trInsertionSortLoop F isad first last F st (first + 1)

/-- Forward gathering loop of trCopy (lines 2267-2275). -/
def trCopyLoop1 (isa v depth : Int) : Nat → Core → Int → Int → Core × Int
  | 0, st, _, d => (st, d)
  | k + 1, st, c, d =>
    if c ≤ d then
      let s := st.sget c - depth
      let p :=
        if s ≥ 0 ∧ st.sget (isa + s) = v then
          let d := d + 1
          ((st.sset d s).sset (isa + s) d, d)
        else (st, d)
      trCopyLoop1 isa v depth k p.1 (c + 1) p.2
    else (st, d)

/-- Backward gathering loop of trCopy (lines 2280-2288). -/
def trCopyLoop2 (isa v depth e : Int) : Nat → Core → Int → Int → Core
  | 0, st, _, _ => st
  | k + 1, st, c, d =>
    if d > e then
      let s := st.sget c - depth
      let p :=
        if s ≥ 0 ∧ st.sget (isa + s) = v then
          let d := d - 1
          ((st.sset d s).sset (isa + s) d, d)
        else (st, d)
      trCopyLoop2 isa v depth e k p.1 (c - 1) p.2
    else st

/-- trCopy, DivSufSort.cpp lines 2262-2289. -/
def trCopy (F : Nat) (isa first a b last depth : Int) (st : Core) : Core :=
  let v := b - 1
  let p := trCopyLoop1 isa v depth F st first (a - 1)
  let e := p.2 + 1
  trCopyLoop2 isa v depth e F p.1 (last - 1) b

/-- Forward gathering loop of trPartialCopy (lines 2208-2223). -/
def trPCLoop1 (isa v depth : Int) : Nat → Core → Int → Int → Int → Int → Core × Int × Int
  | 0, st, _, d, _, newRank => (st, d, newRank)
  | k + 1, st, c, d, lastRank, newRank =>
    if c ≤ d then
      let s := st.sget c - depth
      if s ≥ 0 ∧ st.sget (isa + s) = v then
        let d := d + 1
        let st := st.sset d s
        let rank := st.sget (isa + s + depth)
        let lr := if lastRank ≠ rank then (rank, d) else (lastRank, newRank)
        let st := st.sset (isa + s) lr.2
        trPCLoop1 isa v depth k st (c + 1) d lr.1 lr.2
      else trPCLoop1 isa v depth k st (c + 1) d lastRank newRank
    else (st, d, newRank)

/-- Rank smoothing loop of trPartialCopy (lines 2227-2238). -/
def trPCLoop2 (isa first : Int) : Nat → Core → Int → Int → Int → Core × Int
  | 0, st, _, _, newRank => (st, newRank)
  | k + 1, st, e, lastRank, newRank =>
    if first ≤ e then
      let rank := st.sget (isa + st.sget e)
      let lr := if lastRank ≠ rank then (rank, e) else (lastRank, newRank)
      let st := if lr.2 ≠ rank then st.sset (isa + st.sget e) lr.2 else st
      trPCLoop2 isa first k st (e - 1) lr.1 lr.2
    else (st, newRank)

/-- Backward gathering loop of trPartialCopy (lines 2244-2259). -/
def trPCLoop3 (isa v depth e : Int) : Nat → Core → Int → Int → Int → Int → Core
  | 0, st, _, _, _, _ => st
  | k + 1, st, c, d, lastRank, newRank =>
    if d > e then
      let s := st.sget c - depth
      if s ≥ 0 ∧ st.sget (isa + s) = v then
        let d := d - 1
        let st := st.sset d s
        let rank := st.sget (isa + s + depth)
        let lr := if lastRank ≠ rank then (rank, d) else (lastRank, newRank)
        let st := st.sset (isa + s) lr.2
        trPCLoop3 isa v depth e k st (c - 1) d lr.1 lr.2
      else trPCLoop3 isa v depth e k st (c - 1) d lastRank newRank
    else st

/-- trPartialCopy, DivSufSort.cpp lines 2201-2260. -/
def trPartialCopy (F : Nat) (isa first a b last depth : Int) (st : Core) : Core :=
  let v := b - 1
  let p1 := trPCLoop1 isa v depth F st first (a - 1) (-1) (-1)
  let st := p1.1
  let d := p1.2.1
  let p2 := trPCLoop2 isa first F st d (-1) p1.2.2
  let st := p2.1
  let e := d + 1
  trPCLoop3 isa v depth e F st (last - 1) b (-1) p2.2

/-- Rank rewrite loop, the pattern of lines 1652-1655, 1657-1660,
1766-1769 and 1871-1878: write v into the rank slot of every element of
the range. -/
def trUpdateRanks (isa v bound : Int) : Nat → Core → Int → Core
  | 0, st, _ => st
  | k + 1, st, c =>
    if c < bound then trUpdateRanks isa v bound k (st.sset (isa + st.sget c) v) (c + 1)
    else st

/-- Rank-fixing scan over an already-sorted positive run (lines
1746-1749). -/
def trSortedScan (isa last : Int) : Nat → Core → Int → Core × Int
  | 0, st, a => (st, a)
  | k + 1, st, a =>
    let st := st.sset (isa + st.sget a) a
    let a := a + 1
    if a < last ∧ st.sget a ≥ 0 then trSortedScan isa last k st a else (st, a)

/-- Untagging run of the sorted-partition branch (lines 1757-1760). -/
def trTagRun : Nat → Core → Int → Core × Int
  | 0, st, a => (st, a)
  | k + 1, st, a =>
    let st := st.sset a (cpl (st.sget a))
    let a := a + 1
    if st.sget a < 0 then trTagRun k st a else (st, a)

/-- Equal-rank tagging sweep after the heapsort fallback of trIntroSort
(lines 1840-1849). -/
def trHeapTagInner (isad first x : Int) : Nat → Core → Int → Core × Int
  | 0, st, b => (st, b)
  | k + 1, st, b =>
    if first ≤ b ∧ st.sget (isad + st.sget b) = x then
      trHeapTagInner isad first x k (st.sset b (cpl (st.sget b))) (b - 1)
    else (st, b)

/-- Outer loop of the post-heapsort tagging sweep (lines 1841-1849). -/
def trHeapTagLoop (F : Nat) (isad first : Int) : Nat → Core → Int → Core
  | 0, st, _ => st
  | k + 1, st, a =>
    if first < a then
      let x := st.sget (isad + st.sget a)
      let p := trHeapTagInner isad first x F st (a - 1)
      trHeapTagLoop F isad first k p.1 p.2
    else st

/-- Main loop of trIntroSort, DivSufSort.cpp lines 1637-2036: ternary
introsort on the rank at offset isad with explicit stack; negative limit
values select the tandem-repeat partition (-1), the deferred copy step
(-2) and the sorted-partition rank rebuild (at or below -3); trlink
chains the stack frame whose copy step must degrade to trPartialCopy when
the budget runs out. -/
def trISLoop (F : Nat) (isa incr : Int) :
    Nat → Core → TRBudget → Int → Int → Int → Int → Int → Core × TRBudget
  | 0, st, bud, _, _, _, _, _ => (st, bud)
  | fl + 1, st, bud, isad, first, last, limit, trlink =>
    withCore st fun st => withInt isad fun isad => withInt first fun first =>
    withInt last fun last => withInt limit fun limit => withInt trlink fun trlink =>
    if limit < 0 then
      if limit = -1 then
        let p := trPartition F (isad - incr) first first last (last - 1) st
        let st := p.1
        let a := p.2.1
        let b := p.2.2
        let st := if a < last then trUpdateRanks isa (a - 1) a F st first else st
        let st := if b < last then trUpdateRanks isa (b - 1) b F st a else st
        let pl :=
          if b - a > 1 then
            let st := st.trPush 0 a b 0 0
            let st := st.trPush (isad - incr) first last (-2) trlink
            (st, st.trStack.size - 2)
          else (st, trlink)
        let st := pl.1
        let trlink := pl.2
        if a - first ≤ last - b then
          if a - first > 1 then
            let st := st.trPush isad b last (trIlg (last - b)) trlink
            trISLoop F isa incr fl st bud isad first a (trIlg (a - first)) trlink
          else if last - b > 1 then
            trISLoop F isa incr fl st bud isad b last (trIlg (last - b)) trlink
          else
            match st.trPop with
            | none => (st, bud)
            | some (se, st) => trISLoop F isa incr fl st bud se.a se.b se.c se.d se.e
        else
          if last - b > 1 then
            let st := st.trPush isad first a (trIlg (a - first)) trlink
            trISLoop F isa incr fl st bud isad b last (trIlg (last - b)) trlink
          else if a - first > 1 then
            trISLoop F isa incr fl st bud isad first a (trIlg (a - first)) trlink
          else
            match st.trPop with
            | none => (st, bud)
            | some (se, st) => trISLoop F isa incr fl st bud se.a se.b se.c se.d se.e
      else if limit = -2 then
        let p := st.trPopD
        let se := p.1
        let st := p.2
        let st :=
          if se.d = 0 then trCopy F isa first se.b se.c last (isad - isa) st
          else
            let st := if trlink ≥ 0 then st.trMarkD trlink else st
            trPartialCopy F isa first se.b se.c last (isad - isa) st
        match st.trPop with
        | none => (st, bud)
        | some (se2, st) => trISLoop F isa incr fl st bud se2.a se2.b se2.c se2.d se2.e
      else
        let pf :=
          if st.sget first ≥ 0 then trSortedScan isa last F st first
          else (st, first)
        let st := pf.1
        let first := pf.2
        if first < last then
          let pt := trTagRun F st first
          let st := pt.1
          let a := pt.2
          let next :=
            if st.sget (isa + st.sget a) ≠ st.sget (isad + st.sget a) then trIlg (a - first + 1)
            else -1
          let a := a + 1
          let st := if a < last then trUpdateRanks isa (a - 1) a F st first else st
          let cb := bud.check (a - first)
          let bud := cb.2
          if cb.1 then
            if a - first ≤ last - a then
              let st := st.trPush isad a last (-3) trlink
              trISLoop F isa incr fl st bud (isad + incr) first a next trlink
            else
              if last - a > 1 then
                let st := st.trPush (isad + incr) first a next trlink
                trISLoop F isa incr fl st bud isad a last (-3) trlink
              else
                trISLoop F isa incr fl st bud (isad + incr) first a next trlink
          else
            let st := if trlink ≥ 0 then st.trMarkD trlink else st
            if last - a > 1 then
              trISLoop F isa incr fl st bud isad a last (-3) trlink
            else
              match st.trPop with
              | none => (st, bud)
              | some (se, st) => trISLoop F isa incr fl st bud se.a se.b se.c se.d se.e
        else
          match st.trPop with
          | none => (st, bud)
          | some (se, st) => trISLoop F isa incr fl st bud se.a se.b se.c se.d se.e
    else if last - first ≤ TR_INSERTIONSORT_THRESHOLD then
      let st := trInsertionSort F isad first last st
      trISLoop F isa incr fl st bud isad first last (-3) trlink
    else if limit = 0 then
      let st := trHeapSort F isad first (last - first) st
      let st := trHeapTagLoop F isad first F st (last - 1)
      trISLoop F isa incr fl st bud isad first last (-3) trlink
    else
      let limit := limit - 1
      let st := st.swap first (trPivot st isad first last)
      let v := st.sget (isad + st.sget first)
      let p := trPartition F isad first (first + 1) last v st
      let st := p.1
      let a := p.2.1
      let b := p.2.2
      if last - first ≠ b - a then
        let next := if st.sget (isa + st.sget a) ≠ v then trIlg (b - a) else -1
        let st := trUpdateRanks isa (a - 1) a F st first
        let st := if b < last then trUpdateRanks isa (b - 1) b F st a else st
        let cb := if b - a > 1 then bud.check (b - a) else (false, bud)
        let bud := cb.2
        if b - a > 1 ∧ cb.1 then
          if a - first ≤ last - b then
            if last - b ≤ b - a then
              if a - first > 1 then
                let st := st.trPush (isad + incr) a b next trlink
                let st := st.trPush isad b last limit trlink
                trISLoop F isa incr fl st bud isad first a limit trlink
              else if last - b > 1 then
                let st := st.trPush (isad + incr) a b next trlink
                trISLoop F isa incr fl st bud isad b last limit trlink
              else
                trISLoop F isa incr fl st bud (isad + incr) a b next trlink
            else if a - first ≤ b - a then
              if a - first > 1 then
                let st := st.trPush isad b last limit trlink
                let st := st.trPush (isad + incr) a b next trlink
                trISLoop F isa incr fl st bud isad first a limit trlink
              else
                let st := st.trPush isad b last limit trlink
                trISLoop F isa incr fl st bud (isad + incr) a b next trlink
            else
              let st := st.trPush isad b last limit trlink
              let st := st.trPush isad first a limit trlink
              trISLoop F isa incr fl st bud (isad + incr) a b next trlink
          else
            if a - first ≤ b - a then
              if last - b > 1 then
                let st := st.trPush (isad + incr) a b next trlink
                let st := st.trPush isad first a limit trlink
                trISLoop F isa incr fl st bud isad b last limit trlink
              else if a - first > 1 then
                let st := st.trPush (isad + incr) a b next trlink
                trISLoop F isa incr fl st bud isad first a limit trlink
              else
                trISLoop F isa incr fl st bud (isad + incr) a b next trlink
            else if last - b ≤ b - a then
              if last - b > 1 then
                let st := st.trPush isad first a limit trlink
                let st := st.trPush (isad + incr) a b next trlink
                trISLoop F isa incr fl st bud isad b last limit trlink
              else
                let st := st.trPush isad first a limit trlink
                trISLoop F isa incr fl st bud (isad + incr) a b next trlink
            else
              let st := st.trPush isad first a limit trlink
              let st := st.trPush isad b last limit trlink
              trISLoop F isa incr fl st bud (isad + incr) a b next trlink
        else
          let st := if b - a > 1 ∧ trlink ≥ 0 then st.trMarkD trlink else st
          if a - first ≤ last - b then
            if a - first > 1 then
              let st := st.trPush isad b last limit trlink
              trISLoop F isa incr fl st bud isad first a limit trlink
            else if last - b > 1 then
              trISLoop F isa incr fl st bud isad b last limit trlink
            else
              match st.trPop with
              | none => (st, bud)
              | some (se, st) => trISLoop F isa incr fl st bud se.a se.b se.c se.d se.e
          else
            if last - b > 1 then
              let st := st.trPush isad first a limit trlink
              trISLoop F isa incr fl st bud isad b last limit trlink
            else if a - first > 1 then
              trISLoop F isa incr fl st bud isad first a limit trlink
            else
              match st.trPop with
              | none => (st, bud)
              | some (se, st) => trISLoop F isa incr fl st bud se.a se.b se.c se.d se.e
      else
        let cb := bud.check (last - first)
        let bud := cb.2
        if cb.1 then
          trISLoop F isa incr fl st bud (isad + incr) first last (trIlg (last - first)) trlink
        else
          let st := if trlink ≥ 0 then st.trMarkD trlink else st
          match st.trPop with
          | none => (st, bud)
          | some (se, st) => trISLoop F isa incr fl st bud se.a se.b se.c se.d se.e

/-- trIntroSort, DivSufSort.cpp lines 1637-2036. -/
def trIntroSort (F : Nat) (isa isad first last : Int) (st : Core) (bud : TRBudget) :
    Core × TRBudget :=
  trISLoop F isa (isad - isa) F st bud isad first last (trIlg (last - first)) (-1)

/-- The budget trSort constructs (DivSufSort.cpp line 1501): chance is
trIlg of n times two thirds, the credit and its refill value are n, the
work counter starts at zero. -/
def trSortBudget (n : Int) : TRBudget := ⟨trIlg n * 2 / 3, n, n, 0⟩

/-- Group loop of one trSort pass (lines 1508-1537), followed by the final
skip write (lines 1539-1540) in trSortPass.  Carries the cursor, the
pending negative skip run and the accumulated unsorted count. -/
def trSortPassLoop (F : Nat) (n isad : Int) :
    Nat → Core → TRBudget → Int → Int → Int → Core × TRBudget × Int × Int × Int
  | 0, st, bud, first, skip, unsorted => (st, bud, first, skip, unsorted)
  | k + 1, st, bud, first, skip, unsorted =>
    withCore st fun st => withInt first fun first => withInt skip fun skip =>
    withInt unsorted fun unsorted =>
    let t := st.sget first
    if t < 0 then
      let first := first - t
      let skip := skip + t
      if first < n then trSortPassLoop F n isad k st bud first skip unsorted
      else (st, bud, first, skip, unsorted)
    else
      let ps := if skip ≠ 0 then (st.sset (first + skip) skip, (0 : Int)) else (st, skip)
      let st := ps.1
      let skip := ps.2
      let last := st.sget (n + t) + 1
      let q :=
        if last - first > 1 then
          let bud := ⟨bud.chance, bud.remain, bud.incVal, 0⟩
          let pr := trIntroSort F n isad first last st bud
          let st := pr.1
          let bud := pr.2
          if bud.count ≠ 0 then (st, bud, skip, unsorted + bud.count)
          else (st, bud, first - last, unsorted)
        else if last - first = 1 then (st, bud, (-1 : Int), unsorted)
        else (st, bud, skip, unsorted)
      let st := q.1
      let bud := q.2.1
      let skip := q.2.2.1
      let unsorted := q.2.2.2
      let first := last
      if first < n then trSortPassLoop F n isad k st bud first skip unsorted
      else (st, bud, first, skip, unsorted)

/-- One pass of trSort (the body of the outer for loop, lines 1504-1541):
returns the state, the budget and the accumulated unsorted count. -/
def trSortPass (F : Nat) (n isad : Int) (st : Core) (bud : TRBudget) :
    Core × TRBudget × Int :=
  let p := trSortPassLoop F n isad F st bud 0 0 0
  let st := p.1
  let bud := p.2.1
  let first := p.2.2.1
  let skip := p.2.2.2.1
  let unsorted := p.2.2.2.2
  let st := if skip ≠ 0 then st.sset (first + skip) skip else st
  (st, bud, unsorted)

/-- Doubling loop of trSort (lines 1503-1544): run passes, doubling the
rank offset, until either the whole array is one sorted run or a pass
completes with no unsorted work left. -/
def trSortLoop (F : Nat) (n : Int) : Nat → Int → Core → TRBudget → Core
  | 0, _, st, _ => st
  | fuel + 1, isad, st, bud =>
    withCore st fun st => withInt isad fun isad =>
    if st.sget 0 > -n then
      let p := trSortPass F n isad st bud
      if p.2.2 = 0 then p.1
      else trSortLoop F n fuel (isad + (isad - n)) p.1 p.2.1
    else st

/-- trSort, DivSufSort.cpp lines 1499-1545. -/
def trSort (F : Nat) (n depth : Int) (st : Core) : Core :=
  trSortLoop F n F (n + depth) st (trSortBudget n)

/-- A-run counting loop of sortTypeBstar (lines 269-273): count leading
characters while the scan stays non-increasing towards the left. -/
def stbCountRun (F : Nat) : Nat → Core → Int → Int → Core × Int × Int × Int
  | 0, st, i, c0 => (st, i, c0, c0)
  | k + 1, st, i, c0 =>
    withCore st fun st => withInt i fun i => withInt c0 fun c0 =>
    let c1 := c0
    let st := st.bAset c1 (st.bAget c1 + 1)
    let i := i - 1
    if i ≥ 0 then
      let c0n := st.bget i
      if c0n ≥ c1 then stbCountRun F k st i c0n
      else (st, i, c0n, c1)
    else (st, i, c0, c1)

/-- B-run counting loop of sortTypeBstar (lines 284-288). -/
def stbCountB (F : Nat) : Nat → Core → Int → Int → Core × Int × Int
  | 0, st, i, c1 => (st, i, c1)
  | k + 1, st, i, c1 =>
    withCore st fun st => withInt i fun i => withInt c1 fun c1 =>
    if i ≥ 0 then
      let c0 := st.bget i
      if c0 ≤ c1 then
        let st := st.bBset (c1 * 256 + c0) (st.bBget (c1 * 256 + c0) + 1)
        stbCountB F k st (i - 1) c0
      else (st, i, c0)
    else (st, i, c1)

/-- Outer counting loop of sortTypeBstar (lines 266-289): alternate A and
B runs, pushing each B-star position into the tail of SA. -/
def stbCountOuter (F : Nat) : Nat → Core → Int → Int → Int → Core × Int
  | 0, st, _, _, m => (st, m)
  | k + 1, st, i, c0, m =>
    withCore st fun st => withInt i fun i => withInt m fun m =>
    if i ≥ 0 then
      let p := stbCountRun F F st i c0
      let st := p.1
      let i := p.2.1
      let c0 := p.2.2.1
      let c1 := p.2.2.2
      if i < 0 then (st, m)
      else
        let st := st.bBset (c0 * 256 + c1) (st.bBget (c0 * 256 + c1) + 1)
        let m := m - 1
        let st := st.sset m i
        let i := i - 1
        let q := stbCountB F F st i c0
        stbCountOuter F k q.1 q.2.1 q.2.2 m
    else (st, m)

/-- Inner bucket-boundary loop of sortTypeBstar (lines 304-308). -/
def stbCalcInner (c0 : Int) : Nat → Core → Int → Int → Int → Core × Int × Int
  | 0, st, _, i, j => (st, i, j)
  | k + 1, st, c1, i, j =>
    withCore st fun st => withInt i fun i => withInt j fun j =>
    if c1 < 256 then
      let j := j + st.bBget (c0 * 256 + c1)
      let st := st.bBset (c0 * 256 + c1) j
      let i := i + st.bBget (c1 * 256 + c0)
      stbCalcInner c0 k st (c1 + 1) i j
    else (st, i, j)

/-- Outer bucket-boundary loop of sortTypeBstar (lines 298-309). -/
def stbCalcOuter (F : Nat) : Nat → Core → Int → Int → Int → Core
  | 0, st, _, _, _ => st
  | k + 1, st, c0, i, j =>
    withCore st fun st => withInt i fun i => withInt j fun j =>
    if c0 < 256 then
      let t := i + st.bAget c0
      let st := st.bAset c0 (i + j)
      let i := t + st.bBget (c0 * 256 + c0)
      let p := stbCalcInner c0 F st (c0 + 1) i j
      stbCalcOuter F k p.1 (c0 + 1) p.2.1 p.2.2
    else st

/-- Two-byte bucketing of the B-star positions (lines 315-320). -/
def stbPlaceLoop (F : Nat) (pab : Int) : Nat → Core → Int → Core
  | 0, st, _ => st
  | k + 1, st, i =>
    if i ≥ 0 then
      let t := st.sget (pab + i)
      let idx := st.bget t * 256 + st.bget (t + 1)
      let st := st.bBset idx (st.bBget idx - 1)
      let st := st.sset (st.bBget idx) i
      stbPlaceLoop F pab k st (i - 1)
    else st

/-- Inner ssSort dispatch loop of sortTypeBstar (lines 334-341). -/
def stbSsInner (F : Nat) (pab m bufSize n c0 : Int) : Nat → Core → Int → Int → Core × Int
  | 0, st, _, j => (st, j)
  | k + 1, st, c1, j =>
    withCore st fun st => withInt j fun j =>
    if c1 > c0 then
      let i := st.bBget (c0 * 256 + c1)
      let st :=
        if j > i + 1 then ssSort F pab i j m bufSize 2 n (st.sget i == m - 1) st
        else st
      stbSsInner F pab m bufSize n c0 k st (c1 - 1) i
    else (st, j)

/-- Outer ssSort dispatch loop of sortTypeBstar (lines 331-342). -/
def stbSsOuter (F : Nat) (pab m bufSize n : Int) : Nat → Core → Int → Int → Core
  | 0, st, _, _ => st
  | k + 1, st, c0, j =>
    withCore st fun st => withInt j fun j =>
    if j > 0 then
      let p := stbSsInner F pab m bufSize n c0 F st 255 j
      stbSsOuter F pab m bufSize n k p.1 (c0 - 1) p.2
    else st

/-- Positive run of the rank computation (lines 347-352). -/
def stbRankPos (F : Nat) (m : Int) : Nat → Core → Int → Core × Int
  | 0, st, i => (st, i)
  | k + 1, st, i =>
    let st := st.sset (m + st.sget i) i
    let i := i - 1
    if i ≥ 0 ∧ st.sget i ≥ 0 then stbRankPos F m k st i else (st, i)

/-- Tagged run of the rank computation (lines 360-366). -/
def stbRankNeg (F : Nat) (m j : Int) : Nat → Core → Int → Core × Int
  | 0, st, i => (st, i)
  | k + 1, st, i =>
    let st := st.sset i (cpl (st.sget i))
    let st := st.sset (m + st.sget i) j
    let i := i - 1
    if st.sget i < 0 then stbRankNeg F m j k st i else (st, i)

/-- Rank computation over the sorted B-star substrings, DivSufSort.cpp
lines 345-369. -/
def stbRankOuter (F : Nat) (m : Int) : Nat → Core → Int → Core
  | 0, st, _ => st
  | k + 1, st, i =>
    withCore st fun st => withInt i fun i =>
    if i ≥ 0 then
      if st.sget i ≥ 0 then
        let j := i
        let q := stbRankPos F m F st i
        let st := q.1
        let i := q.2
        let st := st.sset (i + 1) (i - j)
        if i ≤ 0 then st
        else
          let j := i
          let q2 := stbRankNeg F m j F st i
          let st := q2.1
          let i := q2.2
          let st := st.sset (m + st.sget i) j
          stbRankOuter F m k st (i - 1)
      else
        let j := i
        let q2 := stbRankNeg F m j F st i
        let st := q2.1
        let i := q2.2
        let st := st.sset (m + st.sget i) j
        stbRankOuter F m k st (i - 1)
    else st

/-- Non-increasing scan of the B-star order pass (line 380-382). -/
def stbOrderDesc (st : Core) : Nat → Int → Int → Int × Int
  | 0, i, c1 => (i, c1)
  | k + 1, i, c1 =>
    if i ≥ 0 then
      let c0 := st.bget i
      if c0 ≥ c1 then stbOrderDesc st k (i - 1) c0 else (i, c0)
    else (i, c1)

/-- Non-decreasing scan of the B-star order pass (line 388-390). -/
def stbOrderAsc (st : Core) : Nat → Int → Int → Int × Int
  | 0, i, c1 => (i, c1)
  | k + 1, i, c1 =>
    if i ≥ 0 then
      let c0 := st.bget i
      if c0 ≤ c1 then stbOrderAsc st k (i - 1) c0 else (i, c0)
    else (i, c1)

/-- Scatter of the sorted B-star order (lines 375-395). -/
def stbOrderOuter (F : Nat) (m : Int) : Nat → Core → Int → Int → Int → Core
  | 0, st, _, _, _ => st
  | k + 1, st, i, j, c0 =>
    withCore st fun st => withInt i fun i => withInt j fun j => withInt c0 fun c0 =>
    if i ≥ 0 then
      let i := i - 1
      let p := stbOrderDesc st F i c0
      let i := p.1
      let c0 := p.2
      if i ≥ 0 then
        let tt := i
        let i := i - 1
        let q := stbOrderAsc st F i c0
        let i := q.1
        let c0 := q.2
        let j := j - 1
        let st := st.sset (st.sget (m + j)) (if tt = 0 ∨ tt - i > 1 then tt else cpl tt)
        stbOrderOuter F m k st i j c0
      else st
    else st

/-- Copy loop of the final bucket move (lines 412-413). -/
def stbMoveCopy (j : Int) : Nat → Core → Int → Int → Core × Int × Int
  | 0, st, i, k2 => (st, i, k2)
  | fl + 1, st, i, k2 =>
    withCore st fun st => withInt i fun i => withInt k2 fun k2 =>
    if j ≤ k2 then stbMoveCopy j fl (st.sset i (st.sget k2)) (i - 1) (k2 - 1)
    else (st, i, k2)

/-- Inner loop of the final bucket move (lines 405-414). -/
def stbMoveInner (F : Nat) (c0 : Int) : Nat → Core → Int → Int → Int → Core × Int × Int
  | 0, st, _, i, k2 => (st, i, k2)
  | fl + 1, st, c1, i, k2 =>
    withCore st fun st => withInt i fun i => withInt k2 fun k2 =>
    if c1 > c0 then
      let tt := i - st.bBget (c1 * 256 + c0)
      let st := st.bBset (c1 * 256 + c0) i
      let i := tt
      let p := stbMoveCopy (st.bBget (c0 * 256 + c1)) F st i k2
      stbMoveInner F c0 fl p.1 (c1 - 1) p.2.1 p.2.2
    else (st, i, k2)

/-- Outer loop of the final bucket move (lines 401-418). -/
def stbMoveOuter (F : Nat) : Nat → Core → Int → Int → Core
  | 0, st, _, _ => st
  | fl + 1, st, c0, k2 =>
    withCore st fun st => withInt k2 fun k2 =>
    if c0 ≥ 0 then
      let i := st.bAget (c0 + 1) - 1
      let p := stbMoveInner F c0 F st 255 i k2
      let st := p.1
      let i := p.2.1
      let k2 := p.2.2
      let st := st.bBset (c0 * 256 + c0 + 1) (i - st.bBget (c0 * 256 + c0) + 1)
      let st := st.bBset (c0 * 256 + c0) i
      stbMoveOuter F fl st (c0 - 1) k2
    else st

/-- sortTypeBstar, DivSufSort.cpp lines 258-422: counting and bucket
layout, two-byte bucketing of the B-star positions, substring sort,
rank construction, tandem-repeat sort and the final scatter of the sorted
B-star suffixes to their bucket slots.  Returns the number m of B-star
suffixes. -/
def sortTypeBstar (F : Nat) (n : Int) (st : Core) : Core × Int :=
  let m := n
  let c0 := st.bget (n - 1)
  let p := stbCountOuter F F st (n - 1) c0 m
  let st := p.1
  let m := n - p.2
  let st := stbCalcOuter F F st 0 0 0
  if m > 0 then
    let pab := n - m
    let st := stbPlaceLoop F pab F st (m - 2)
    let t := st.sget (pab + m - 1)
    let idx := st.bget t * 256 + st.bget (t + 1)
    let st := st.bBset idx (st.bBget idx - 1)
    let st := st.sset (st.bBget idx) (m - 1)
    let bufSize := n - m - m
    let st := stbSsOuter F pab m bufSize n F st 254 m
    let st := stbRankOuter F m F st (m - 1)
    let st := trSort F m 1 st
    let c0b := st.bget (n - 1)
    let st := stbOrderOuter F m F st (n - 1) m c0b
    let st := st.bBset 65535 n
    let st := stbMoveOuter F F st 254 (m - 1)
    (st, m)
  else (st, m)

/-- Inner right-to-left induction loop of constructSuffixArray (lines
109-131). -/
def csaInner (F : Nat) (idx i : Int) : Nat → Core → Int → Int → Int → Core
  | 0, st, _, _, _ => st
  | fl + 1, st, j, k2, c2 =>
    withCore st fun st => withInt k2 fun k2 => withInt c2 fun c2 =>
    if j ≥ i then
      let s := st.sget j
      let st := st.sset j (cpl s)
      if s ≤ 0 then csaInner F idx i fl st (j - 1) k2 c2
      else
        let s := s - 1
        let c0 := st.bget s
        let s := if s > 0 ∧ st.bget (s - 1) > c0 then cpl s else s
        let p :=
          if c0 ≠ c2 then
            let st := if c2 ≥ 0 then st.bBset (idx + c2) k2 else st
            (st, c0, st.bBget (idx + c0))
          else (st, c2, k2)
        let st := p.1
        let c2 := p.2.1
        let k2 := p.2.2
        let st := st.sset k2 s
        csaInner F idx i fl st (j - 1) (k2 - 1) c2
    else st

/-- Right-to-left induction sweep of constructSuffixArray (lines
102-133). -/
def csaOuterRL (F : Nat) : Nat → Core → Int → Core
  | 0, st, _ => st
  | fl + 1, st, c1 =>
    withCore st fun st =>
    if c1 ≥ 0 then
      let idx := c1 * 256
      let i := st.bBget (idx + c1 + 1)
      let st := csaInner F idx i F st (st.bAget (c1 + 1) - 1) 0 (-1)
      csaOuterRL F fl st (c1 - 1)
    else st

/-- Left-to-right induction sweep of constructSuffixArray (lines
140-161). -/
def csaScan (F : Nat) (n : Int) : Nat → Core → Int → Int → Int → Core
  | 0, st, _, _, _ => st
  | fl + 1, st, i, k2, c2 =>
    withCore st fun st => withInt k2 fun k2 => withInt c2 fun c2 =>
    if i < n then
      let s := st.sget i
      if s ≤ 0 then csaScan F n fl (st.sset i (cpl s)) (i + 1) k2 c2
      else
        let s := s - 1
        let c0 := st.bget s
        let s := if s = 0 ∨ st.bget (s - 1) < c0 then cpl s else s
        let p :=
          if c0 ≠ c2 then
            let st := st.bAset c2 k2
            (st, c0, st.bAget c0)
          else (st, c2, k2)
        let st := p.1
        let c2 := p.2.1
        let k2 := p.2.2
        let st := st.sset k2 s
        csaScan F n fl st (i + 1) (k2 + 1) c2
    else st

/-- constructSuffixArray, DivSufSort.cpp lines 100-162. -/
def constructSuffixArray (F : Nat) (n m : Int) (st : Core) : Core :=
  let st := if m > 0 then csaOuterRL F F st 254 else st
  let c2 := st.bget (n - 1)
  let k2 := st.bAget c2
  let st := st.sset k2 (if st.bget (n - 2) < c2 then cpl (n - 1) else n - 1)
  csaScan F n F st 0 (k2 + 1) c2

/-- Inner right-to-left induction loop of constructBWT (lines 192-218):
like the suffix-array variant but recording the preceding byte as the
tagged complement in the visited slot. -/
def cbwInner (F : Nat) (idx i : Int) : Nat → Core → Int → Int → Int → Core
  | 0, st, _, _, _ => st
  | fl + 1, st, j, k2, c2 =>
    withCore st fun st => withInt k2 fun k2 => withInt c2 fun c2 =>
    if j ≥ i then
      let s := st.sget j
      if s ≤ 0 then
        let st := if s ≠ 0 then st.sset j (cpl s) else st
        cbwInner F idx i fl st (j - 1) k2 c2
      else
        let s := s - 1
        let c0 := st.bget s
        let st := st.sset j (cpl c0)
        let s := if s > 0 ∧ st.bget (s - 1) > c0 then cpl s else s
        let p :=
          if c0 ≠ c2 then
            let st := if c2 ≥ 0 then st.bBset (idx + c2) k2 else st
            (st, c0, st.bBget (idx + c0))
          else (st, c2, k2)
        let st := p.1
        let c2 := p.2.1
        let k2 := p.2.2
        let st := st.sset k2 s
        cbwInner F idx i fl st (j - 1) (k2 - 1) c2
    else st

/-- Right-to-left induction sweep of constructBWT (lines 185-220). -/
def cbwOuterRL (F : Nat) : Nat → Core → Int → Core
  | 0, st, _ => st
  | fl + 1, st, c1 =>
    withCore st fun st =>
    if c1 ≥ 0 then
      let idx := c1 * 256
      let i := st.bBget (idx + c1 + 1)
      let st := cbwInner F idx i F st (st.bAget (c1 + 1) - 1) 0 (-1)
      cbwOuterRL F fl st (c1 - 1)
    else st

/-- Left-to-right induction sweep of constructBWT (lines 227-253),
recording the primary index where the zero entry is met. -/
def cbwScan (F : Nat) (n : Int) : Nat → Core → Int → Int → Int → Int → Core × Int
  | 0, st, _, _, _, pIdx => (st, pIdx)
  | fl + 1, st, i, k2, c2, pIdx =>
    withCore st fun st => withInt k2 fun k2 => withInt c2 fun c2 =>
    if i < n then
      let s := st.sget i
      if s ≤ 0 then
        if s ≠ 0 then cbwScan F n fl (st.sset i (cpl s)) (i + 1) k2 c2 pIdx
        else cbwScan F n fl st (i + 1) k2 c2 i
      else
        let s := s - 1
        let c0 := st.bget s
        let st := st.sset i c0
        let s := if s > 0 ∧ st.bget (s - 1) < c0 then cpl (st.bget (s - 1)) else s
        let p :=
          if c0 ≠ c2 then
            let st := st.bAset c2 k2
            (st, c0, st.bAget c0)
          else (st, c2, k2)
        let st := p.1
        let c2 := p.2.1
        let k2 := p.2.2
        let st := st.sset k2 s
        cbwScan F n fl st (i + 1) (k2 + 1) c2 pIdx
    else (st, pIdx)

/-- constructBWT, DivSufSort.cpp lines 181-256: returns the primary
index. -/
def constructBWT (F : Nat) (n m : Int) (st : Core) : Core × Int :=
  let st := if m > 0 then cbwOuterRL F F st 254 else st
  let c2 := st.bget (n - 1)
  let k2 := st.bAget c2
  let st := st.sset k2 (if st.bget (n - 2) < c2 then cpl (st.bget (n - 2)) else n - 1)
  cbwScan F n F st 0 (k2 + 1) c2 (-1)

/-- Descending zero-fill of an encoded bucket array, the loops of reset
(lines 76-80). -/
def zeroLoop : Nat → Arr → Arr
  | 0, b => b
  | k + 1, b => Arr.force (asetN b k 0) (zeroLoop k)

/-- reset, DivSufSort.cpp lines 70-81: rewind the three stacks and clear
both bucket arrays. -/
def reset (st : Core) : Core :=
  { st with
    ssStack := ⟨st.ssStack.arr, 0⟩
    trStack := ⟨st.trStack.arr, 0⟩
    mergeStack := ⟨st.mergeStack.arr, 0⟩
    bucketA := zeroLoop 256 st.bucketA
    bucketB := zeroLoop 65536 st.bucketB }

/-- Input widening loop of computeSuffixArray and computeBWT (lines 91-92
and 172-173): store byte start+i of the input, masked to eight bits, at
buffer slot i. -/
def fillBuffer (input : List Int) (start : Int) : Nat → Int → Arr → Arr
  | 0, _, buf => buf
  | k + 1, i, buf =>
    Arr.force (aset buf i ((input.getD (start + i).toNat 0).emod 256))
      (fillBuffer input start k (i + 1))

/-- The persistent engine object: the members of class DivSufSort;
lengthField models the length field written only by the constructor
(line 55) and read by the lazy-allocation guard. -/
structure DivSufSortEngine where
  lengthField : Int
  buffer : Arr
  bucketA : Arr
  bucketB : Arr
  ssStack : Stack
  trStack : Stack
  mergeStack : Stack

/-- The constructor DivSufSort, lines 53-60: zero length field, empty
buffer, fresh stacks. -/
def DivSufSortEngine.new : DivSufSortEngine :=
  ⟨0, .nil, .nil, .nil, ⟨#[], 0⟩, ⟨#[], 0⟩, ⟨#[], 0⟩⟩

/-- The lazy-allocation guard of computeSuffixArray and computeBWT (lines
86-89 and 167-170): when the recorded length is below length + 1 the old
buffer is dropped and a fresh (all-garbage, modelled all-zero) one is
allocated, otherwise the old buffer is kept. -/
def bufferUsed (e : DivSufSortEngine) (length : Int) : Arr :=
  if e.lengthField < length + 1 then .nil else e.buffer

/-- Builds the Core state at the start of a call. -/
def startState (e : DivSufSortEngine) (input : List Int) (sa : Arr) (start length oob : Int) :
    Core :=
  let buf := fillBuffer input start length.toNat 0 (bufferUsed e length)
  reset
    { sa := sa, buffer := buf, bufLen := length, oob := oob,
      bucketA := e.bucketA, bucketB := e.bucketB,
      ssStack := e.ssStack, trStack := e.trStack, mergeStack := e.mergeStack }

/-- Write-back of the engine members after a call. -/
def endState (e : DivSufSortEngine) (st : Core) : DivSufSortEngine :=
  { e with
    buffer := st.buffer
    bucketA := st.bucketA
    bucketB := st.bucketB
    ssStack := st.ssStack
    trStack := st.trStack
    mergeStack := st.mergeStack }

/-- computeSuffixArray, DivSufSort.cpp lines 83-98: returns the updated
engine and the caller SA array holding the suffix array. -/
def computeSuffixArray (F : Nat) (e : DivSufSortEngine) (input : List Int) (sa : Arr)
    (start length oob : Int) : DivSufSortEngine × Arr :=
  let st := startState e input sa start length oob
  let p := sortTypeBstar F length st
  let st := constructSuffixArray F length p.2 p.1
  (endState e st, st.sa)

/-- computeBWT, DivSufSort.cpp lines 164-179: returns the updated engine,
the caller SA array holding the BWT bytes and the primary index. -/
def computeBWT (F : Nat) (e : DivSufSortEngine) (input : List Int) (sa : Arr)
    (start length oob : Int) : DivSufSortEngine × Arr × Int :=
  let st := startState e input sa start length oob
  let p := sortTypeBstar F length st
  let q := constructBWT F length p.2 p.1
  (endState e q.1, q.1.sa, q.2)

/-- Decoding of the first n entries of an encoded int32 array. -/
def decodeSA (sa : Arr) (n : Nat) : List Int := (List.range n).map (agetN sa)

/-- One whole computeSuffixArray call on a fresh engine over a zeroed
caller array, decoded; g is the garbage value of out-of-range buffer
reads. -/
def runSuffixArray (g : Int) (input : List Int) : List Int :=
  decodeSA (computeSuffixArray 1000000 DivSufSortEngine.new input .nil 0 (input.length : Int) g).2
    input.length

/-- One whole computeBWT call on a fresh engine over a zeroed caller
array: the decoded BWT output and the returned primary index. -/
def runBWT (g : Int) (input : List Int) : List Int × Int :=
  let r := computeBWT 1000000 DivSufSortEngine.new input .nil 0 (input.length : Int) g
  (decodeSA r.2.1 input.length, r.2.2)

/-- The Core state of a zero-length call on a fresh engine: empty caller SA,
empty widened buffer, bufLen 0, garbage value g for the out-of-range reads
the source performs, zeroed buckets and rewound stacks. -/
def CoreNil (g : Int) : Core :=
  ⟨.nil, .nil, 0, g, .nil, .nil, ⟨#[], 0⟩, ⟨#[], 0⟩, ⟨#[], 0⟩⟩

/-- The caller SA array written by the prelude of both construct phases on
the zero-length state: the single slot 0 holding -1 (digit 4294967295). -/
def saNeg : Arr :=
  .node 4294967295 0 0 0 0 0 0 0 0 0 0 0 0 0 0 0 .nil

/-! ### The strictness combinators are semantically the identity -/

lemma Arr.force_eq {α : Sort v} (t : Arr) (f : Arr → α) : Arr.force t f = f t := by
  cases t <;> rfl

lemma withNat_eq {α : Sort v} (n : Nat) (f : Nat → α) : withNat n f = f n := by
  unfold withNat; exact ite_self (f n)

lemma withInt_eq {α : Sort v} (i : Int) (f : Int → α) : withInt i f = f i := by
  unfold withInt; exact ite_self (f i)

lemma withCore_eq {α : Sort v} (st : Core) (f : Core → α) : withCore st f = f st := by
  cases st
  simp only [withCore, Arr.force_eq]

/-! ### Reads and zero writes on the all-zero array -/

lemma agetN_nil (i : Nat) : agetN Arr.nil i = 0 := by
  simp [agetN, Arr.row, digit, dec32]

lemma aget_nil (i : Int) : aget Arr.nil i = 0 := agetN_nil i.toNat

lemma asetN_nil (i : Nat) : asetN Arr.nil i 0 = Arr.nil := by
  unfold asetN
  simp only [show ∀ k, Arr.row Arr.nil k = 0 from fun k => rfl,
    show enc32 0 = 0 from rfl, digit, Nat.zero_shiftRight, Nat.zero_and,
    Nat.zero_shiftLeft, Nat.sub_zero, Nat.add_zero, withNat, ite_self]
  simp [Arr.setRow]

lemma aset_nil (i : Int) : aset Arr.nil i 0 = Arr.nil := asetN_nil i.toNat

lemma zeroLoop_nil (k : Nat) : zeroLoop k .nil = .nil := by
  induction k with
  | zero => rfl
  | succ k ih => rw [zeroLoop, asetN_nil, Arr.force_eq]; exact ih

/-! ### The start state of a call on a fresh engine -/

lemma reset_lit (a b : Arr) (n g : Int) (s1 s2 s3 : Stack) :
    reset ⟨a, b, n, g, .nil, .nil, s1, s2, s3⟩ =
      ⟨a, b, n, g, .nil, .nil, ⟨s1.arr, 0⟩, ⟨s2.arr, 0⟩, ⟨s3.arr, 0⟩⟩ := by
  simp [reset, zeroLoop_nil]

lemma startState_new (input : List Int) (sa : Arr) (start length oob : Int) :
    startState DivSufSortEngine.new input sa start length oob =
      ⟨sa, fillBuffer input start length.toNat 0 .nil, length, oob, .nil, .nil,
        ⟨#[], 0⟩, ⟨#[], 0⟩, ⟨#[], 0⟩⟩ := by
  have h0 : bufferUsed DivSufSortEngine.new length = .nil := by
    unfold bufferUsed; split <;> rfl
  unfold startState
  rw [h0]
  exact reset_lit sa (fillBuffer input start length.toNat 0 .nil) length oob
    ⟨#[], 0⟩ ⟨#[], 0⟩ ⟨#[], 0⟩

lemma startState_empty (g : Int) :
    startState DivSufSortEngine.new [] .nil 0 0 g = CoreNil g := by
  rw [startState_new]; rfl

/-! ### Reads of the zero-length state -/

lemma bget_CoreNil (g i : Int) : (CoreNil g).bget i = g := by
  unfold Core.bget CoreNil
  rw [if_neg]
  simp only
  omega

lemma bAget_CoreNil (g i : Int) : (CoreNil g).bAget i = 0 := aget_nil i

lemma bBget_CoreNil (g i : Int) : (CoreNil g).bBget i = 0 := aget_nil i

lemma sget_CoreNil (g i : Int) : (CoreNil g).sget i = 0 := aget_nil i

lemma bBset_CoreNil (g i : Int) : (CoreNil g).bBset i 0 = CoreNil g := by
  unfold Core.bBset CoreNil
  rw [aset_nil]

lemma bAset_CoreNil (g i : Int) : (CoreNil g).bAset i 0 = CoreNil g := by
  unfold Core.bAset CoreNil
  rw [aset_nil]

/-! ### The counting and bucket-boundary phases are no-ops on the
zero-length state -/

lemma stbCountOuter_neg (F : Nat) (f : Nat) (st : Core) (c0 m : Int) :
    stbCountOuter F f st (-1) c0 m = (st, m) := by
  cases f with
  | zero => rfl
  | succ f =>
    rw [stbCountOuter, withCore_eq, withInt_eq, withInt_eq, if_neg (by omega)]

lemma stbCalcInner_nil (g c0 : Int) (f : Nat) :
    ∀ c1 : Int, stbCalcInner c0 f (CoreNil g) c1 0 0 = (CoreNil g, 0, 0) := by
  induction f with
  | zero => intro c1; rfl
  | succ f ih =>
    intro c1
    rw [stbCalcInner, withCore_eq, withInt_eq, withInt_eq]
    by_cases hc : c1 < 256
    · rw [if_pos hc]
      simp only [bBget_CoreNil, add_zero, bBset_CoreNil]
      exact ih (c1 + 1)
    · rw [if_neg hc]

lemma stbCalcOuter_nil (g : Int) (F : Nat) (f : Nat) :
    ∀ c0 : Int, stbCalcOuter F f (CoreNil g) c0 0 0 = CoreNil g := by
  induction f with
  | zero => intro c0; rfl
  | succ f ih =>
    intro c0
    rw [stbCalcOuter, withCore_eq, withInt_eq, withInt_eq]
    by_cases hc : c0 < 256
    · rw [if_pos hc]
      simp only [bAget_CoreNil, add_zero, bAset_CoreNil, bBget_CoreNil,
        stbCalcInner_nil]
      exact ih (c0 + 1)
    · rw [if_neg hc]

/-- sortTypeBstar on the zero-length state: the counting loop exits at once
(the scan cursor starts at -1), the boundary sweep writes only zeroes, no
B-star suffix exists, so the expensive phases are skipped and m = 0 is
returned. -/
lemma sortTypeBstar_nil (F : Nat) (g : Int) :
    sortTypeBstar F 0 (CoreNil g) = (CoreNil g, 0) := by
  unfold sortTypeBstar
  simp only [show (0 : Int) - 1 = -1 from rfl, stbCountOuter_neg,
    stbCalcOuter_nil]
  norm_num

/-! ### The induction sweeps exit at once when n = 0 -/

lemma csaScan_zero (F : Nat) (f : Nat) (st : Core) (i k2 c2 : Int) (h : ¬ i < 0) :
    csaScan F 0 f st i k2 c2 = st := by
  cases f with
  | zero => rfl
  | succ f => rw [csaScan, withCore_eq, withInt_eq, withInt_eq, if_neg h]

lemma cbwScan_zero (F : Nat) (f : Nat) (st : Core) (i k2 c2 p : Int) (h : ¬ i < 0) :
    cbwScan F 0 f st i k2 c2 p = (st, p) := by
  cases f with
  | zero => rfl
  | succ f => rw [cbwScan, withCore_eq, withInt_eq, withInt_eq, if_neg h]

lemma aset_nil_neg1 : aset Arr.nil 0 (-1) = saNeg := rfl

lemma sset_CoreNil_neg (g : Int) :
    (CoreNil g).sset 0 (-1) = { CoreNil g with sa := saNeg } := by
  unfold Core.sset
  rw [show (CoreNil g).sa = Arr.nil from rfl, aset_nil_neg1]

/-- constructSuffixArray at n = 0 writes -1 into SA slot 0 (the conditional
reads the garbage bytes at buffer[-1] and buffer[-2], which are equal, so the
untagged branch n - 1 = -1 is taken) and the left-to-right sweep exits at
once. -/
lemma constructSuffixArray_nil (F : Nat) (g : Int) :
    constructSuffixArray F 0 0 (CoreNil g) =
      { CoreNil g with sa := saNeg } := by
  unfold constructSuffixArray
  simp only [show ¬ (0 : Int) > 0 from by norm_num, if_false,
    bget_CoreNil, bAget_CoreNil, lt_irrefl, if_false]
  rw [show (0 : Int) - 1 = -1 from rfl, sset_CoreNil_neg]
  exact csaScan_zero F F _ 0 _ _ (by norm_num)

/-- constructBWT at n = 0: same single write of -1 into SA slot 0, and the
scan returns the initial primary index -1 untouched. -/
lemma constructBWT_nil (F : Nat) (g : Int) :
    constructBWT F 0 0 (CoreNil g) =
      ({ CoreNil g with sa := saNeg }, -1) := by
  unfold constructBWT
  simp only [show ¬ (0 : Int) > 0 from by norm_num, if_false,
    bget_CoreNil, bAget_CoreNil, lt_irrefl, if_false]
  rw [show (0 : Int) - 1 = -1 from rfl, sset_CoreNil_neg]
  exact cbwScan_zero F F _ 0 _ _ _ (by norm_num)

/-- A zero-length computeSuffixArray call on a fresh engine: the call
completes and writes -1 into the caller SA slot 0. -/
lemma computeSuffixArray_empty (F : Nat) (g : Int) :
    computeSuffixArray F DivSufSortEngine.new [] .nil 0 0 g =
      (endState DivSufSortEngine.new { CoreNil g with sa := saNeg }, saNeg) := by
  simp only [computeSuffixArray, startState_empty, sortTypeBstar_nil,
    constructSuffixArray_nil]

/-- A zero-length computeBWT call on a fresh engine: the call completes,
writes -1 into the caller SA slot 0 and returns primary index -1. -/
lemma computeBWT_empty (F : Nat) (g : Int) :
    computeBWT F DivSufSortEngine.new [] .nil 0 0 g =
      (endState DivSufSortEngine.new { CoreNil g with sa := saNeg }, saNeg, -1) := by
  simp only [computeBWT, startState_empty, sortTypeBstar_nil, constructBWT_nil]

/-! ### The byte logarithm table realises the floor base-2 logarithm -/

set_option maxRecDepth 8000 in
lemma logTN_pow :
    ∀ m : Nat, m < 256 → 1 ≤ m →
      0 ≤ logTN m ∧ 2 ^ (logTN m).toNat ≤ m ∧ m < 2 ^ ((logTN m).toNat + 1) := by
  decide

lemma logTN_eq (m : Nat) (h1 : m < 256) (h2 : 1 ≤ m) : logTN m = (Nat.log2 m : Int) := by
  obtain ⟨h0, hlo, hhi⟩ := logTN_pow m h1 h2
  have hm : m ≠ 0 := by omega
  have e1 : (logTN m).toNat ≤ Nat.log2 m := (Nat.le_log2 hm).mpr hlo
  have e2 : Nat.log2 m < (logTN m).toNat + 1 := (Nat.log2_lt hm).mpr hhi
  omega

lemma log2_div_pow (n k : Nat) : Nat.log2 (n / 2 ^ k) = Nat.log2 n - k := by
  induction k with
  | zero => simp
  | succ k ih =>
    rw [pow_succ, ← Nat.div_div_eq_div_mul, Nat.log2_eq_log_two, Nat.log_div_base,
      ← Nat.log2_eq_log_two, ih]
    omega

lemma land_mask (n j k : Nat) : n &&& ((2 ^ j - 1) <<< k) = ((n >>> k) % 2 ^ j) <<< k := by
  apply Nat.eq_of_testBit_eq
  intro i
  simp only [Nat.testBit_and, Nat.testBit_shiftLeft, Nat.testBit_shiftRight,
    Nat.testBit_mod_two_pow, Nat.testBit_two_pow_sub_one]
  by_cases h : k ≤ i
  · have h2 : k + (i - k) = i := by omega
    simp [h, h2, Bool.and_comm, Bool.and_left_comm]
  · simp [h]

lemma land_lo8 (n : Nat) : n &&& 0xFF = n % 256 := by
  have h : (0xFF : Nat) = 2 ^ 8 - 1 := by norm_num
  rw [h, Nat.and_pow_two_sub_one_eq_mod]

lemma land_mid8 (n : Nat) : n &&& 0xFF00 = ((n >>> 8) % 256) <<< 8 := by
  have h : (0xFF00 : Nat) = (2 ^ 8 - 1) <<< 8 := by decide
  rw [h, land_mask]
  norm_num

lemma land_hi16 (n : Nat) : n &&& 0xFFFF0000 = ((n >>> 16) % 65536) <<< 16 := by
  have h : (0xFFFF0000 : Nat) = (2 ^ 16 - 1) <<< 16 := by decide
  rw [h, land_mask]
  norm_num

lemma land_hi8 (n : Nat) : n &&& 0xFF000000 = ((n >>> 24) % 256) <<< 24 := by
  have h : (0xFF000000 : Nat) = (2 ^ 8 - 1) <<< 24 := by decide
  rw [h, land_mask]
  norm_num

lemma ssIlgN_eq (n : Nat) (h1 : 1 ≤ n) (h2 : n < 65536) : ssIlgN n = (Nat.log2 n : Int) := by
  have hdiv8 : n >>> 8 = n / 256 := by
    rw [Nat.shiftRight_eq_div_pow]
  unfold ssIlgN
  by_cases c8 : n < 256
  · have g2 : n &&& 0xFF00 = 0 := by
      rw [land_mid8, hdiv8, Nat.div_eq_of_lt c8]
      simp
    rw [if_neg (by simp [g2])]
    rw [land_lo8, Nat.mod_eq_of_lt c8]
    exact logTN_eq n c8 h1
  · have hq1 : 1 ≤ n / 256 := by omega
    have hqlt : n / 256 < 256 := by omega
    have g2 : n &&& 0xFF00 ≠ 0 := by
      rw [land_mid8, hdiv8, Nat.mod_eq_of_lt hqlt, Nat.shiftLeft_eq]
      have hp : 0 < (n / 256) * 2 ^ 8 := by positivity
      omega
    rw [if_pos g2]
    rw [land_lo8, hdiv8, Nat.mod_eq_of_lt hqlt]
    rw [logTN_eq _ hqlt hq1]
    have lg : Nat.log2 (n / 256) = Nat.log2 n - 8 := by
      have h := log2_div_pow n 8
      norm_num at h
      exact h
    have hle : 8 ≤ Nat.log2 n := (Nat.le_log2 (by omega)).mpr (by norm_num; omega)
    rw [lg]
    omega

lemma trIlgN_eq (n : Nat) (h1 : 1 ≤ n) (h2 : n < 2 ^ 31) : trIlgN n = (Nat.log2 n : Int) := by
  have hdiv8 : n >>> 8 = n / 256 := by rw [Nat.shiftRight_eq_div_pow]
  have hdiv16 : n >>> 16 = n / 65536 := by rw [Nat.shiftRight_eq_div_pow]
  have hdiv24 : n >>> 24 = n / 16777216 := by rw [Nat.shiftRight_eq_div_pow]
  have hn31 : n < 2147483648 := by norm_num at h2; omega
  unfold trIlgN
  by_cases c16 : n < 65536
  · have g1 : n &&& 0xFFFF0000 = 0 := by
      rw [land_hi16, hdiv16, Nat.div_eq_of_lt c16]
      simp
    rw [if_neg (by simp [g1])]
    by_cases c8 : n < 256
    · have g2 : n &&& 0x0000FF00 = 0 := by
        rw [land_mid8, hdiv8, Nat.div_eq_of_lt c8]
        simp
      rw [if_neg (by simp [g2])]
      rw [land_lo8, Nat.mod_eq_of_lt c8]
      exact logTN_eq n c8 h1
    · have hq1 : 1 ≤ n / 256 := by omega
      have hqlt : n / 256 < 256 := by omega
      have g2 : n &&& 0x0000FF00 ≠ 0 := by
        rw [land_mid8, hdiv8, Nat.mod_eq_of_lt hqlt, Nat.shiftLeft_eq]
        have hp : 0 < (n / 256) * 2 ^ 8 := by positivity
        omega
      rw [if_pos g2]
      rw [land_lo8, hdiv8, Nat.mod_eq_of_lt hqlt]
      rw [logTN_eq _ hqlt hq1]
      have lg : Nat.log2 (n / 256) = Nat.log2 n - 8 := by
        have h := log2_div_pow n 8
        norm_num at h
        exact h
      have hle : 8 ≤ Nat.log2 n := (Nat.le_log2 (by omega)).mpr (by norm_num; omega)
      rw [lg]
      omega
  · by_cases c24 : n < 16777216
    · have hq1 : 1 ≤ n / 65536 := by omega
      have hqlt : n / 65536 < 256 := by omega
      have g1 : n &&& 0xFFFF0000 ≠ 0 := by
        rw [land_hi16, hdiv16, Nat.mod_eq_of_lt (by omega : n / 65536 < 65536),
          Nat.shiftLeft_eq]
        have hp : 0 < (n / 65536) * 2 ^ 16 := by positivity
        omega
      rw [if_pos g1]
      have g2 : n &&& 0xFF000000 = 0 := by
        rw [land_hi8, hdiv24, Nat.div_eq_of_lt c24]
        simp
      rw [if_neg (by simp [g2])]
      rw [land_lo8, hdiv16, Nat.mod_eq_of_lt hqlt]
      rw [logTN_eq _ hqlt hq1]
      have lg : Nat.log2 (n / 65536) = Nat.log2 n - 16 := by
        have h := log2_div_pow n 16
        norm_num at h
        exact h
      have hle : 16 ≤ Nat.log2 n := (Nat.le_log2 (by omega)).mpr (by norm_num; omega)
      rw [lg]
      omega
    · have hq1 : 1 ≤ n / 16777216 := by omega
      have hqlt : n / 16777216 < 256 := by omega
      have g1 : n &&& 0xFFFF0000 ≠ 0 := by
        have hq16 : 1 ≤ n / 65536 := by omega
        rw [land_hi16, hdiv16, Nat.mod_eq_of_lt (by omega : n / 65536 < 65536),
          Nat.shiftLeft_eq]
        have hp : 0 < (n / 65536) * 2 ^ 16 := by positivity
        omega
      rw [if_pos g1]
      have g2 : n &&& 0xFF000000 ≠ 0 := by
        rw [land_hi8, hdiv24, Nat.mod_eq_of_lt hqlt, Nat.shiftLeft_eq]
        have hp : 0 < (n / 16777216) * 2 ^ 24 := by positivity
        omega
      rw [if_pos g2]
      rw [land_lo8, hdiv24, Nat.mod_eq_of_lt hqlt]
      rw [logTN_eq _ hqlt hq1]
      have lg : Nat.log2 (n / 16777216) = Nat.log2 n - 24 := by
        have h := log2_div_pow n 24
        norm_num at h
        exact h
      have hle : 24 ≤ Nat.log2 n := (Nat.le_log2 (by omega)).mpr (by norm_num; omega)
      rw [lg]
      omega

/-- C8 (amended): ssIlg(n) equals floor(log2 n) only on 1 <= n < 65536, and
trIlg(n) equals floor(log2 n) on the whole positive signed 32-bit range
1 <= n < 2^31.  The claim as frozen asserts the ssIlg equation for every
positive int32; C8_ssIlg_counterexample refutes that at n = 65536. -/
theorem C8_ilg_amended :
    (∀ n : Int, 1 ≤ n → n < 65536 → ssIlg n = (Nat.log2 n.toNat : Int)) ∧
    (∀ n : Int, 1 ≤ n → n < 2147483648 → trIlg n = (Nat.log2 n.toNat : Int)) := by
  constructor
  · intro n h1 h2
    unfold ssIlg
    exact ssIlgN_eq n.toNat (by omega) (by omega)
  · intro n h1 h2
    unfold trIlg
    refine trIlgN_eq n.toNat (by omega) ?_
    have hp : (2 : Nat) ^ 31 = 2147483648 := by norm_num
    omega

/-- C8 counterexample: at n = 65536 the mask n AND 0xFF00 is zero, so ssIlg
falls into the low-byte branch and looks up LOG_TABLE[0] = -1, while
floor(log2 65536) = 16. -/
theorem C8_ssIlg_counterexample :
    ssIlg 65536 = -1 ∧ Nat.log2 65536 = 16 ∧ (-1 : Int) ≠ 16 := by
  refine ⟨by decide, ?_, by decide⟩
  have h1 : 16 ≤ Nat.log2 65536 := (Nat.le_log2 (by norm_num)).mpr (by norm_num)
  have h2 : Nat.log2 65536 < 17 := (Nat.log2_lt (by norm_num)).mpr (by norm_num)
  omega

/-- Closed instance of C8_ilg_amended at n = 8 and n = 70000. -/
theorem C8_ilg_witness :
    ((1 : Int) ≤ 8 ∧ (8 : Int) < 65536 ∧ ssIlg 8 = (Nat.log2 (8 : Int).toNat : Int)) ∧
    ((1 : Int) ≤ 70000 ∧ (70000 : Int) < 2147483648 ∧
      trIlg 70000 = (Nat.log2 (70000 : Int).toNat : Int)) :=
  ⟨⟨by decide, by decide, C8_ilg_amended.1 8 (by decide) (by decide)⟩,
   ⟨by decide, by decide, C8_ilg_amended.2 70000 (by decide) (by decide)⟩⟩

/-! ### C7: the tandem-repeat sort budget -/

lemma trSortLoop_succ (F : Nat) (n : Int) (fuel : Nat) (isad : Int) (st : Core)
    (bud : TRBudget) :
    trSortLoop F n (fuel + 1) isad st bud =
      if st.sget 0 > -n then
        let p := trSortPass F n isad st bud
        if p.2.2 = 0 then p.1
        else trSortLoop F n fuel (isad + (isad - n)) p.1 p.2.1
      else st := by
  rw [trSortLoop, withCore_eq, withInt_eq]

/-- C7: TRBudget::check(size) subtracts size from the remaining credit and
returns true when size fits; on underflow with a chance left it consumes one
chance, replenishes the remaining credit by incValue - size (incValue is the
n the budget was built with) and returns true; with no chance left it returns
false and accumulates size into count.  trSort builds the budget with
chance = floor(log2 n) * 2 / 3 and both credit and incValue n, and the
doubling loop runs a further pass exactly when the finished pass reports
nonzero unsorted work on a not yet fully sorted array. -/
theorem C7_trsort_budget :
    (∀ (b : TRBudget) (size : Int),
      (size ≤ b.remain →
        b.check size = (true, ⟨b.chance, b.remain - size, b.incVal, b.count⟩)) ∧
      (b.remain < size → b.chance ≠ 0 →
        b.check size =
          (true, ⟨b.chance - 1, b.remain + (b.incVal - size), b.incVal, b.count⟩)) ∧
      (b.remain < size → b.chance = 0 →
        b.check size = (false, ⟨b.chance, b.remain, b.incVal, b.count + size⟩))) ∧
    (∀ n : Int, 1 ≤ n → n < 2147483648 →
      trSortBudget n = ⟨(Nat.log2 n.toNat : Int) * 2 / 3, n, n, 0⟩) ∧
    (∀ (F : Nat) (n depth : Int) (st : Core),
      trSort F n depth st = trSortLoop F n F (n + depth) st (trSortBudget n)) ∧
    (∀ (F : Nat) (n : Int) (fuel : Nat) (isad : Int) (st : Core) (bud : TRBudget),
      trSortLoop F n (fuel + 1) isad st bud =
        if st.sget 0 > -n then
          let p := trSortPass F n isad st bud
          if p.2.2 = 0 then p.1
          else trSortLoop F n fuel (isad + (isad - n)) p.1 p.2.1
        else st) := by
  refine ⟨?_, ?_, fun F n depth st => rfl, trSortLoop_succ⟩
  · intro b size
    refine ⟨?_, ?_, ?_⟩
    · intro h; unfold TRBudget.check; rw [if_pos h]
    · intro h hc; unfold TRBudget.check; rw [if_neg (by omega), if_neg hc]
    · intro h hc; unfold TRBudget.check; rw [if_neg (by omega), if_pos hc]
  · intro n h1 h2
    have ht : trIlg n = (Nat.log2 n.toNat : Int) := by
      unfold trIlg
      refine trIlgN_eq n.toNat (by omega) ?_
      have hp : (2 : Nat) ^ 31 = 2147483648 := by norm_num
      omega
    unfold trSortBudget
    rw [ht]

/-- Closed instance of C7_trsort_budget: the three check outcomes, the budget
built at n = 8 and one doubling-loop step on a zeroed state. -/
theorem C7_trsort_budget_witness :
    ((3 : Int) ≤ 10 ∧
      TRBudget.check ⟨2, 10, 50, 0⟩ 3 = (true, ⟨2, 10 - 3, 50, 0⟩)) ∧
    ((10 : Int) < 11 ∧ (2 : Int) ≠ 0 ∧
      TRBudget.check ⟨2, 10, 50, 0⟩ 11 = (true, ⟨2 - 1, 10 + (50 - 11), 50, 0⟩)) ∧
    ((10 : Int) < 11 ∧
      TRBudget.check ⟨0, 10, 50, 4⟩ 11 = (false, ⟨0, 10, 50, 4 + 11⟩)) ∧
    ((1 : Int) ≤ 8 ∧ (8 : Int) < 2147483648 ∧
      trSortBudget 8 = ⟨(Nat.log2 (8 : Int).toNat : Int) * 2 / 3, 8, 8, 0⟩) ∧
    trSort 2 8 3 (CoreNil 0) = trSortLoop 2 8 2 (8 + 3) (CoreNil 0) (trSortBudget 8) ∧
    trSortLoop 1 5 1 9 (CoreNil 0) ⟨1, 5, 5, 0⟩ =
      (if (CoreNil 0).sget 0 > -5 then
        let p := trSortPass 1 5 9 (CoreNil 0) ⟨1, 5, 5, 0⟩
        if p.2.2 = 0 then p.1
        else trSortLoop 1 5 0 (9 + (9 - 5)) p.1 p.2.1
      else CoreNil 0) :=
  ⟨⟨by decide, (C7_trsort_budget.1 ⟨2, 10, 50, 0⟩ 3).1 (by decide)⟩,
   ⟨by decide, by decide,
     (C7_trsort_budget.1 ⟨2, 10, 50, 0⟩ 11).2.1 (by decide) (by decide)⟩,
   ⟨by decide, (C7_trsort_budget.1 ⟨0, 10, 50, 4⟩ 11).2.2 (by decide) (by decide)⟩,
   ⟨by decide, by decide, C7_trsort_budget.2.1 8 (by decide) (by decide)⟩,
   C7_trsort_budget.2.2.1 2 8 3 (CoreNil 0),
   C7_trsort_budget.2.2.2 1 5 0 9 (CoreNil 0) ⟨1, 5, 5, 0⟩⟩

/-! ### C9: the calls read the input only inside the window -/

lemma fillBuffer_congr (l1 l2 : List Int) (start : Int) :
    ∀ (k : Nat) (i : Int) (buf : Arr),
      (∀ j : Nat, j < k →
        l1.getD (start + i + j).toNat 0 = l2.getD (start + i + j).toNat 0) →
      fillBuffer l1 start k i buf = fillBuffer l2 start k i buf := by
  intro k
  induction k with
  | zero => intro i buf _; rfl
  | succ k ih =>
    intro i buf h
    rw [fillBuffer, fillBuffer]
    have h0 : l1.getD (start + i).toNat 0 = l2.getD (start + i).toNat 0 := by
      have h1 := h 0 (Nat.succ_pos k)
      simpa using h1
    rw [h0, Arr.force_eq, Arr.force_eq]
    apply ih
    intro j hj
    have e : start + (i + 1) + (j : Int) = start + i + ((j + 1 : Nat) : Int) := by
      push_cast; ring
    rw [e]
    exact h (j + 1) (by omega)

/-- C9: computeSuffixArray and computeBWT never read the caller input outside
the window, and never write it: the input list is immutable in this
embedding, the Core state carries no input component (all writes land in the
caller SA encoding or in the engine buffer, buckets and stacks), and two
inputs that agree on the bytes at start..start+length-1 give identical
results, engine state, suffix array and primary index alike. -/
theorem C9_input_frame (F : Nat) (e : DivSufSortEngine) (l1 l2 : List Int) (sa : Arr)
    (start length oob : Int)
    (h : ∀ j : Nat, j < length.toNat →
      l1.getD (start + j).toNat 0 = l2.getD (start + j).toNat 0) :
    computeSuffixArray F e l1 sa start length oob =
      computeSuffixArray F e l2 sa start length oob ∧
    computeBWT F e l1 sa start length oob = computeBWT F e l2 sa start length oob := by
  have hb : fillBuffer l1 start length.toNat 0 (bufferUsed e length)
      = fillBuffer l2 start length.toNat 0 (bufferUsed e length) := by
    apply fillBuffer_congr
    intro j hj
    have e0 : start + (0 : Int) + (j : Int) = start + (j : Int) := by ring
    rw [e0]
    exact h j hj
  have hs : startState e l1 sa start length oob = startState e l2 sa start length oob := by
    unfold startState
    rw [hb]
  constructor
  · unfold computeSuffixArray; rw [hs]
  · unfold computeBWT; rw [hs]

/-- Closed instance of C9_input_frame: two inputs that differ only beyond the
two-byte window produce identical calls. -/
theorem C9_input_frame_witness :
    (∀ j : Nat, j < (2 : Int).toNat →
      ([5, 7, 9] : List Int).getD ((0 : Int) + j).toNat 0 =
        ([5, 7, 4] : List Int).getD ((0 : Int) + j).toNat 0) ∧
    (computeSuffixArray 3 DivSufSortEngine.new [5, 7, 9] .nil 0 2 0 =
      computeSuffixArray 3 DivSufSortEngine.new [5, 7, 4] .nil 0 2 0 ∧
     computeBWT 3 DivSufSortEngine.new [5, 7, 9] .nil 0 2 0 =
      computeBWT 3 DivSufSortEngine.new [5, 7, 4] .nil 0 2 0) :=
  ⟨by decide,
   C9_input_frame 3 DivSufSortEngine.new [5, 7, 9] [5, 7, 4] .nil 0 2 0 (by decide)⟩

/-- C10: the engine length field is 0 after construction, every
computeSuffixArray and computeBWT call preserves it (reset does not touch it
and the write-back endState copies every member except lengthField from the
finished state), so the lazy-allocation guard lengthField < length + 1 holds
on every call with length >= 0 and the call works on a fresh all-zero buffer
rather than reusing the previous allocation. -/
theorem C10_length_field :
    DivSufSortEngine.new.lengthField = 0 ∧
    (∀ (F : Nat) (e : DivSufSortEngine) (input : List Int) (sa : Arr)
        (start length oob : Int),
      (computeSuffixArray F e input sa start length oob).1.lengthField = e.lengthField ∧
      (computeBWT F e input sa start length oob).1.lengthField = e.lengthField) ∧
    (∀ (e : DivSufSortEngine) (length : Int),
      e.lengthField = 0 → 0 ≤ length → bufferUsed e length = .nil) := by
  refine ⟨rfl, fun F e input sa start length oob => ⟨rfl, rfl⟩, ?_⟩
  intro e length h0 hl
  unfold bufferUsed
  rw [h0, if_pos (by omega)]

/-- Closed instance of C10_length_field: a concrete call keeps the zero
length field, and a zero length field forces the fresh-buffer branch even on
an engine whose stored buffer is nonempty. -/
theorem C10_length_field_witness :
    (computeSuffixArray 2 DivSufSortEngine.new [9, 8] .nil 0 2 0).1.lengthField =
      DivSufSortEngine.new.lengthField ∧
    ((⟨0, saNeg, .nil, .nil, ⟨#[], 0⟩, ⟨#[], 0⟩, ⟨#[], 0⟩⟩ :
        DivSufSortEngine).lengthField = 0 ∧
      (0 : Int) ≤ 3 ∧
      bufferUsed ⟨0, saNeg, .nil, .nil, ⟨#[], 0⟩, ⟨#[], 0⟩, ⟨#[], 0⟩⟩ 3 = .nil) :=
  ⟨(C10_length_field.2.1 2 DivSufSortEngine.new [9, 8] .nil 0 2 0).1,
   by decide, by decide,
   C10_length_field.2.2 ⟨0, saNeg, .nil, .nil, ⟨#[], 0⟩, ⟨#[], 0⟩, ⟨#[], 0⟩⟩ 3
     rfl (by decide)⟩

/-- C5: the n < 2 paths read out of bounds and do not produce the claimed
trivial output.  At length 0 on a fresh engine, computeBWT completes by
reading the garbage bytes at buffer[-1] and buffer[-2] (modelled by the
explicit oob parameter g), writes -1 into SA slot 0 - beyond the length-0
output range - and returns primary index -1, not the claimed 0. -/
theorem C5_small_n_bug (g : Int) :
    (computeBWT 1000000 DivSufSortEngine.new [] .nil 0 0 g).2.2 = -1 ∧
    (computeBWT 1000000 DivSufSortEngine.new [] .nil 0 0 g).2.2 ≠ 0 ∧
    decodeSA (computeBWT 1000000 DivSufSortEngine.new [] .nil 0 0 g).2.1 1 = [-1] := by
  rw [computeBWT_empty]
  refine ⟨rfl, by norm_num, ?_⟩
  show decodeSA saNeg 1 = [-1]
  decide

/-- C6 (amended): the two entry points perform no argument validation.  A
zero-length call proceeds into the sorter, completes normally for every
garbage value g read out of bounds, emits data into the caller SA (slot 0
changes from 0 to -1) and computeBWT returns primary index -1; no
invalid-argument error exists in the control flow. -/
theorem C6_no_validation (F : Nat) (g : Int) :
    (computeBWT F DivSufSortEngine.new [] .nil 0 0 g).2.2 = -1 ∧
    decodeSA (computeBWT F DivSufSortEngine.new [] .nil 0 0 g).2.1 1 = [-1] ∧
    decodeSA (computeSuffixArray F DivSufSortEngine.new [] .nil 0 0 g).2 1 = [-1] := by
  rw [computeBWT_empty, computeSuffixArray_empty]
  exact ⟨rfl, show decodeSA saNeg 1 = [-1] by decide,
    show decodeSA saNeg 1 = [-1] by decide⟩

/-- C6 counterexample: a concrete invalid call (length 0) is not rejected:
it completes, overwrites the caller SA slot 0 (initially decoding to [0],
afterwards to [-1]) and hands back the in-band value -1 as primary index
instead of surfacing an invalid-argument error. -/
theorem C6_error_counterexample :
    decodeSA (Arr.nil) 1 = [0] ∧
    decodeSA (computeSuffixArray 1000000 DivSufSortEngine.new [] .nil 0 0 7).2 1 = [-1] ∧
    (computeBWT 1000000 DivSufSortEngine.new [] .nil 0 0 7).2.2 = -1 := by
  rw [computeSuffixArray_empty, computeBWT_empty]
  refine ⟨by decide, by decide, rfl⟩

end Kanzi
